import Mathlib

/-!
Shallow embedding of `src/server.js` — a read-only Express + SQLite HTTP API
over a Formula 1 dataset (20 GET operations).

Modelling conventions:
* Each route handler becomes a Lean function from an in-memory database value
  and the raw path-parameter strings to a `HandlerOut`: the HTTP response
  together with the query call (SQL template text + bind parameters) that was
  submitted to the data store, or `none` when validation rejected the request
  before any query ran.
* JavaScript's `Number(string)` conversion and SQLite's text-to-numeric
  affinity conversion are modelled with exact decimal arithmetic
  (an integer mantissa scaled by a power of ten) rather than 64-bit floats;
  all inputs appearing in the theorems below are exactly representable, so no
  rounding behaviour is lost.
* SQL `ORDER BY` is modelled by a stable structural insertion sort so that the
  definitions evaluate inside the kernel.
-/

/-- A JSON scalar value as produced by the API responses. -/
inductive JVal where
  | s (v : String)
  | i (v : Int)
  | null
deriving DecidableEq

/-- A JSON object row: association list from column label to value. -/
abbrev Row := List (String × JVal)

def jOptStr : Option String → JVal
  | some v => .s v
  | none => .null

def jOptInt : Option Int → JVal
  | some v => .i v
  | none => .null

/-- An exact decimal number: the value `num / 10 ^ exp`. -/
structure Dec where
  num : Int
  exp : Nat
deriving DecidableEq

/-- Whether the decimal denotes an integer value. -/
def Dec.isWhole (d : Dec) : Bool := d.num % (10 : Int) ^ d.exp == 0

/-- `d = c` for an integer `c`. -/
def Dec.eqInt (d : Dec) (c : Int) : Bool := d.num == c * (10 : Int) ^ d.exp

/-- `d ≤ c` for an integer `c`. -/
def Dec.leInt (d : Dec) (c : Int) : Bool := d.num ≤ c * (10 : Int) ^ d.exp

/-- `c ≤ d` for an integer `c`. -/
def Dec.geInt (d : Dec) (c : Int) : Bool := c * (10 : Int) ^ d.exp ≤ d.num

/-- Strict comparison of two decimals. -/
def Dec.ltD (a b : Dec) : Bool := a.num * (10 : Int) ^ b.exp < b.num * (10 : Int) ^ a.exp

/-- The result of JavaScript `Number(string)`. -/
inductive JSNum where
  | nan
  | posinf
  | neginf
  | fin (d : Dec)
deriving DecidableEq

def isDigitCh (c : Char) : Bool := '0' ≤ c && c ≤ '9'

def isHexDigitCh (c : Char) : Bool :=
  ('0' ≤ c && c ≤ '9') || ('a' ≤ c && c ≤ 'f') || ('A' ≤ c && c ≤ 'F')

def hexVal (c : Char) : Nat :=
  if '0' ≤ c && c ≤ '9' then c.toNat - 48
  else if 'a' ≤ c && c ≤ 'f' then c.toNat - 87
  else c.toNat - 55

def isOctDigitCh (c : Char) : Bool := '0' ≤ c && c ≤ '7'

def isBinDigitCh (c : Char) : Bool := c = '0' || c = '1'

def binVal (c : Char) : Nat := c.toNat - 48

def digitsVal (l : List Char) : Nat :=
  l.foldl (fun a c => a * 10 + (c.toNat - 48)) 0

/-- JavaScript `StrWhiteSpace` characters (the ASCII ones plus NBSP). -/
def isWsCh (c : Char) : Bool :=
  c = ' ' || c = '\t' || c = '\n' || c = '\r' || c = '\x0b' || c = '\x0c' || c = '\xa0'

def trimWs (l : List Char) : List Char :=
  ((l.dropWhile isWsCh).reverse.dropWhile isWsCh).reverse

/-- Consume at most one leading sign, returning the sign and the remainder. -/
def splitSign : List Char → (Int × List Char)
  | '+' :: rest => (1, rest)
  | '-' :: rest => (-1, rest)
  | l => (1, l)

/-- Parse an exponent part body (after the `e`/`E`): optional sign, digits. -/
def parseExpPart (l : List Char) : Option Int :=
  match splitSign l with
  | (sg, rest) => if rest ≠ [] ∧ rest.all isDigitCh then some (sg * (digitsVal rest : Int)) else none

/-- Build the decimal `(intPart ++ fracPart) * 10 ^ (ex - fracPart.length)`. -/
def decOfParts (ip fp : List Char) (ex : Int) : Dec :=
  if 0 ≤ ex - (fp.length : Int) then
    ⟨(digitsVal (ip ++ fp) : Int) * (10 : Int) ^ (ex - (fp.length : Int)).toNat, 0⟩
  else
    ⟨(digitsVal (ip ++ fp) : Int), ((fp.length : Int) - ex).toNat⟩

/-- Parse an unsigned decimal literal: `digits [. digits] [exp]`, `. digits [exp]`.
The whole input must be consumed. -/
def parseUnsignedDec (l : List Char) : Option Dec :=
  match l.span isDigitCh with
  | (ip, rest) =>
    match rest with
    | [] => if ip = [] then none else some ⟨(digitsVal ip : Int), 0⟩
    | '.' :: rest2 =>
      match rest2.span isDigitCh with
      | (fp, rest3) =>
        if ip = [] ∧ fp = [] then none
        else
          match rest3 with
          | [] => some (decOfParts ip fp 0)
          | c :: rest4 =>
            if c = 'e' ∨ c = 'E' then
              match parseExpPart rest4 with
              | some ex => some (decOfParts ip fp ex)
              | none => none
            else none
    | c :: rest2 =>
      if (c = 'e' ∨ c = 'E') ∧ ip ≠ [] then
        match parseExpPart rest2 with
        | some ex => some (decOfParts ip [] ex)
        | none => none
      else none

def parseRadix (base : Nat) (ok : Char → Bool) (val : Char → Nat) (l : List Char) : Option Nat :=
  if l ≠ [] ∧ l.all ok then some (l.foldl (fun a c => a * base + val c) 0) else none

/-- The signed-decimal / Infinity tail of JavaScript string-to-number conversion. -/
def jsDecCase (l : List Char) : JSNum :=
  match splitSign l with
  | (sg, body) =>
    if body = "Infinity".toList then (if sg = 1 then .posinf else .neginf)
    else
      match parseUnsignedDec body with
      | some d => .fin ⟨sg * d.num, d.exp⟩
      | none => .nan

/-- JavaScript `Number(string)`: trims whitespace, empty string is `0`, then a
non-decimal integer literal (`0x`, `0o`, `0b`), `Infinity` with optional sign,
or a signed decimal literal; anything else is `NaN`.  Values are kept as exact
decimals (no 64-bit rounding). -/
def jsToNumber (s : String) : JSNum :=
  match trimWs s.toList with
  | [] => .fin ⟨0, 0⟩
  | '0' :: c :: rest =>
    if c = 'x' ∨ c = 'X' then
      match parseRadix 16 isHexDigitCh hexVal rest with
      | some n => .fin ⟨(n : Int), 0⟩
      | none => .nan
    else if c = 'o' ∨ c = 'O' then
      match parseRadix 8 isOctDigitCh (fun d => d.toNat - 48) rest with
      | some n => .fin ⟨(n : Int), 0⟩
      | none => .nan
    else if c = 'b' ∨ c = 'B' then
      match parseRadix 2 isBinDigitCh binVal rest with
      | some n => .fin ⟨(n : Int), 0⟩
      | none => .nan
    else jsDecCase ('0' :: c :: rest)
  | l => jsDecCase l

/-- `src/server.js` line 24: `const isInt = (v) => Number.isInteger(Number(v));` -/
def isInt (v : String) : Bool :=
  match jsToNumber v with
  | .fin d => d.isWhole
  | _ => false

/-- JavaScript `<` on two `Number` values (used at server.js lines 222 and 303). -/
def jsLtB : JSNum → JSNum → Bool
  | .nan, _ => false
  | _, .nan => false
  | .posinf, _ => false
  | .neginf, .neginf => false
  | .neginf, _ => true
  | .fin _, .posinf => true
  | .fin _, .neginf => false
  | .fin a, .fin b => a.ltD b

/-- SQLite text-to-numeric affinity conversion: a bind parameter (always a
string here) compared against an INTEGER-affinity column converts when the
whole text is a well-formed signed decimal/real literal, otherwise the
comparison is over type classes and an integer never equals text. -/
def sqliteNum (s : String) : Option Dec :=
  match splitSign (trimWs s.toList) with
  | (sg, body) =>
    match parseUnsignedDec body with
    | some d => some ⟨sg * d.num, d.exp⟩
    | none => none

/-- SQLite `intColumn = ?` with a text bind. -/
def textEqInt (bind : String) (col : Int) : Bool :=
  match sqliteNum bind with
  | some d => d.eqInt col
  | none => false

/-- SQLite `intColumn BETWEEN ? AND ?` with text binds: false whenever either
bound fails numeric conversion (an integer is below all text values, so the
lower comparison already fails; the model requires both to convert). -/
def yearBetween (col : Int) (lo hi : String) : Bool :=
  match sqliteNum lo, sqliteNum hi with
  | some a, some b => a.leInt col && b.geInt col
  | _, _ => false

/-- SQLite `LOWER` lowercases ASCII letters only. -/
def lowChar (c : Char) : Char :=
  if 'A' ≤ c && c ≤ 'Z' then Char.ofNat (c.toNat + 32) else c

def sqliteLower (s : String) : String := ⟨s.toList.map lowChar⟩

/-- SQLite `LIKE` pattern matching (no ESCAPE clause): `%` matches any
sequence, `_` any single character, other characters match ASCII
case-insensitively.  Structural on the pattern so it evaluates in the kernel. -/
def likeMatch : List Char → List Char → Bool
  | [], ts => ts.isEmpty
  | p :: ps, ts =>
    if p = '%' then ts.tails.any (fun suf => likeMatch ps suf)
    else if p = '_' then
      match ts with
      | [] => false
      | _ :: ts2 => likeMatch ps ts2
    else
      match ts with
      | [] => false
      | t :: ts2 => (lowChar p == lowChar t) && likeMatch ps ts2

/-- Substring (infix) test on strings, used to state the message claims. -/
def strContains (hay needle : String) : Bool :=
  hay.toList.tails.any (fun t => needle.toList.isPrefixOf t)

/-- Stable insertion into a sorted list (model of SQL ORDER BY). -/
def insertLe {α : Type} (le : α → α → Bool) (a : α) : List α → List α
  | [] => [a]
  | b :: bs => if le a b then a :: b :: bs else b :: insertLe le a bs

/-- Stable insertion sort (model of SQL ORDER BY). -/
def sortBy {α : Type} (le : α → α → Bool) : List α → List α
  | [] => []
  | a :: as => insertLe le a (sortBy le as)

/-! ## Data model: the tables of `data/f1.db` used by the 20 queries. -/

structure Circuit where
  circuitId : Int
  circuitRef : String
  name : String
  location : String
  country : String
deriving DecidableEq

structure Constructor where
  constructorId : Int
  constructorRef : String
  name : String
  nationality : String
deriving DecidableEq

structure Driver where
  driverId : Int
  driverRef : String
  code : Option String
  forename : String
  surname : String
deriving DecidableEq

structure Race where
  raceId : Int
  year : Int
  round : Int
  circuitId : Int
  name : String
  date : String
  time : Option String
  url : String
deriving DecidableEq

structure ResultRow where
  resultId : Int
  raceId : Int
  driverId : Int
  constructorId : Int
  grid : Int
  position : Option Int
  positionText : String
  points : Int
  laps : Int
  statusId : Int
deriving DecidableEq

structure Qualifying where
  qualifyId : Int
  raceId : Int
  driverId : Int
  constructorId : Int
  position : Int
  q1 : Option String
  q2 : Option String
  q3 : Option String
deriving DecidableEq

structure DriverStanding where
  raceId : Int
  driverId : Int
  position : Int
  points : Int
  wins : Int
deriving DecidableEq

structure ConstructorStanding where
  raceId : Int
  constructorId : Int
  position : Int
  points : Int
  wins : Int
deriving DecidableEq

structure DB where
  circuits : List Circuit
  constructors : List Constructor
  drivers : List Driver
  races : List Race
  results : List ResultRow
  qualifying : List Qualifying
  driverStandings : List DriverStanding
  constructorStandings : List ConstructorStanding
deriving DecidableEq

/-! ## Row projections (the SELECT lists of the 20 queries). -/

/-- `SELECT * FROM circuits` row. -/
def circuitRow (c : Circuit) : Row :=
  [("circuitId", .i c.circuitId), ("circuitRef", .s c.circuitRef), ("name", .s c.name),
   ("location", .s c.location), ("country", .s c.country)]

/-- `SELECT * FROM constructors` row. -/
def constructorRow (c : Constructor) : Row :=
  [("constructorId", .i c.constructorId), ("constructorRef", .s c.constructorRef),
   ("name", .s c.name), ("nationality", .s c.nationality)]

/-- `SELECT * FROM drivers` row. -/
def driverRow (d : Driver) : Row :=
  [("driverId", .i d.driverId), ("driverRef", .s d.driverRef), ("code", jOptStr d.code),
   ("forename", .s d.forename), ("surname", .s d.surname)]

/-- `SELECT * FROM races` row. -/
def raceRow (r : Race) : Row :=
  [("raceId", .i r.raceId), ("year", .i r.year), ("round", .i r.round),
   ("circuitId", .i r.circuitId), ("name", .s r.name), ("date", .s r.date),
   ("time", jOptStr r.time), ("url", .s r.url)]

/-- The SELECT list of operation 10 (race with inlined circuit fields). -/
def race10Row (r : Race) (c : Circuit) : Row :=
  [("raceId", .i r.raceId), ("year", .i r.year), ("round", .i r.round),
   ("name", .s r.name), ("date", .s r.date), ("time", jOptStr r.time), ("url", .s r.url),
   ("circuitName", .s c.name), ("location", .s c.location), ("country", .s c.country)]

/-- The SELECT list of operation 15 (result with inlined race/driver/constructor). -/
def result15Row (r : ResultRow) (ra : Race) (d : Driver) (c : Constructor) : Row :=
  [("resultId", .i r.resultId), ("position", jOptInt r.position),
   ("positionText", .s r.positionText), ("points", .i r.points), ("grid", .i r.grid),
   ("laps", .i r.laps), ("statusId", .i r.statusId),
   ("race_name", .s ra.name), ("race_round", .i ra.round), ("race_year", .i ra.year),
   ("race_date", .s ra.date),
   ("driver_ref", .s d.driverRef), ("driver_code", jOptStr d.code),
   ("driver_forename", .s d.forename), ("driver_surname", .s d.surname),
   ("constructor_name", .s c.name), ("constructor_ref", .s c.constructorRef),
   ("constructor_nationality", .s c.nationality)]

/-- The SELECT list of operations 16 and 17. -/
def result16Row (r : ResultRow) (ra : Race) (c : Constructor) : Row :=
  [("resultId", .i r.resultId), ("position", jOptInt r.position), ("points", .i r.points),
   ("grid", .i r.grid), ("laps", .i r.laps), ("statusId", .i r.statusId),
   ("raceId", .i ra.raceId), ("year", .i ra.year), ("round", .i ra.round),
   ("name", .s ra.name), ("date", .s ra.date),
   ("constructor_name", .s c.name), ("constructor_ref", .s c.constructorRef)]

/-- The SELECT list of operation 18. -/
def qual18Row (q : Qualifying) (ra : Race) (d : Driver) (c : Constructor) : Row :=
  [("qualifyId", .i q.qualifyId), ("position", .i q.position), ("q1", jOptStr q.q1),
   ("q2", jOptStr q.q2), ("q3", jOptStr q.q3),
   ("race_name", .s ra.name), ("race_round", .i ra.round), ("race_year", .i ra.year),
   ("race_date", .s ra.date),
   ("driver_ref", .s d.driverRef), ("driver_code", jOptStr d.code),
   ("driver_forename", .s d.forename), ("driver_surname", .s d.surname),
   ("constructor_name", .s c.name), ("constructor_ref", .s c.constructorRef),
   ("constructor_nationality", .s c.nationality)]

/-- The SELECT list of operation 19. -/
def ds19Row (ds : DriverStanding) (d : Driver) : Row :=
  [("position", .i ds.position), ("points", .i ds.points), ("wins", .i ds.wins),
   ("driver_ref", .s d.driverRef), ("driver_code", jOptStr d.code),
   ("driver_forename", .s d.forename), ("driver_surname", .s d.surname)]

/-- The SELECT list of operation 20. -/
def cs20Row (cs : ConstructorStanding) (c : Constructor) : Row :=
  [("position", .i cs.position), ("points", .i cs.points), ("wins", .i cs.wins),
   ("constructor_name", .s c.name), ("constructor_ref", .s c.constructorRef),
   ("constructor_nationality", .s c.nationality)]

/-- Look up an integer-valued column of a row (default 0). -/
def rowInt (row : Row) (k : String) : Int :=
  match row.lookup k with
  | some (.i v) => v
  | _ => 0

/-- Look up a string-valued column of a row (default empty). -/
def rowStr (row : Row) (k : String) : String :=
  match row.lookup k with
  | some (.s v) => v
  | _ => ""

/-- The column labels of a row, in order. -/
def rowKeys (row : Row) : List String := row.map (fun p => p.1)

/-! ## Responses and handler outputs. -/

/-- An HTTP response of the service (500 cannot arise in the pure model: the
read-only data store is total). -/
inductive Resp where
  | jsonArr (rows : List Row)
  | jsonObj (row : Row)
  | status400 (msg : String)
  | status404 (msg : String)
deriving DecidableEq

def Resp.statusCode : Resp → Nat
  | .jsonArr _ => 200
  | .jsonObj _ => 200
  | .status400 _ => 400
  | .status404 _ => 404

/-- The rows carried by a success response (a single object counts as one row). -/
def Resp.bodyRows : Resp → List Row
  | .jsonArr rows => rows
  | .jsonObj row => [row]
  | .status400 _ => []
  | .status404 _ => []

/-- server.js lines 19-21: `notFound` helper (its default message). -/
def noDataMsg : String := "No data found."

/-- server.js line 27: `badReq` helper. -/
def badReq (msg : String) : Resp := .status400 msg

/-- A query submitted to the data store: the SQL template text and the bind
parameters, in order. -/
structure QueryCall where
  sql : String
  binds : List String
deriving DecidableEq

/-- The observable outcome of one request: the response plus the query call
that was submitted (`none` when validation rejected the request first). -/
structure HandlerOut where
  resp : Resp
  call : Option QueryCall
deriving DecidableEq

/-- The shared `db.all` callback body: `if (!rows?.length) return notFound(...); res.json(rows)`. -/
def respondAll (rows : List Row) (msg : String) : Resp :=
  if rows.isEmpty then .status404 msg else .jsonArr rows

/-- The shared `db.get` callback body: `if (!row) return notFound(...); res.json(row)`;
`db.get` delivers the first result row, if any. -/
def respondGet (rows : List Row) (msg : String) : Resp :=
  match rows.head? with
  | none => .status404 msg
  | some row => .jsonObj row

/-! ## The 20 SQL templates (whitespace normalized to single spaces). -/

def sql1 : String := "SELECT * FROM circuits;"
def sql2 : String := "SELECT * FROM circuits WHERE circuitRef = ?;"
def sql3 : String :=
  "SELECT c.* FROM circuits c JOIN races r ON c.circuitId = r.circuitId WHERE r.year = ? ORDER BY r.round ASC;"
def sql4 : String := "SELECT * FROM constructors;"
def sql5 : String := "SELECT * FROM constructors WHERE constructorRef = ?;"
def sql6 : String := "SELECT * FROM drivers;"
def sql7 : String := "SELECT * FROM drivers WHERE driverRef = ?;"
def sql8 : String :=
  "SELECT * FROM drivers WHERE LOWER(surname) LIKE LOWER(?) || \x27%\x27 ORDER BY surname ASC, forename ASC;"
def sql9 : String :=
  "SELECT d.* FROM results r JOIN drivers d ON d.driverId = r.driverId WHERE r.raceId = ? ORDER BY r.grid ASC;"
def sql10 : String :=
  "SELECT r.raceId, r.year, r.round, r.name, r.date, r.time, r.url, c.name AS circuitName, c.location, c.country FROM races r JOIN circuits c ON c.circuitId = r.circuitId WHERE r.raceId = ?;"
def sql11 : String := "SELECT * FROM races WHERE year = ? ORDER BY round ASC;"
def sql12 : String := "SELECT * FROM races WHERE year = ? AND round = ?;"
def sql13 : String :=
  "SELECT r.* FROM races r JOIN circuits c ON c.circuitId = r.circuitId WHERE c.circuitRef = ? ORDER BY r.year ASC, r.round ASC;"
def sql14 : String :=
  "SELECT r.* FROM races r JOIN circuits c ON c.circuitId = r.circuitId WHERE c.circuitRef = ? AND r.year BETWEEN ? AND ? ORDER BY r.year ASC, r.round ASC;"
def sql15 : String :=
  "SELECT r.resultId, r.position, r.positionText, r.points, r.grid, r.laps, r.statusId, ra.name AS race_name, ra.round AS race_round, ra.year AS race_year, ra.date AS race_date, d.driverRef AS driver_ref, d.code AS driver_code, d.forename AS driver_forename, d.surname AS driver_surname, c.name AS constructor_name, c.constructorRef AS constructor_ref, c.nationality AS constructor_nationality FROM results r JOIN races ra ON ra.raceId = r.raceId JOIN drivers d ON d.driverId = r.driverId JOIN constructors c ON c.constructorId = r.constructorId WHERE r.raceId = ? ORDER BY r.grid ASC;"
def sql16 : String :=
  "SELECT r.resultId, r.position, r.points, r.grid, r.laps, r.statusId, ra.raceId, ra.year, ra.round, ra.name, ra.date, c.name AS constructor_name, c.constructorRef AS constructor_ref FROM results r JOIN drivers d ON d.driverId = r.driverId JOIN races ra ON ra.raceId = r.raceId JOIN constructors c ON c.constructorId = r.constructorId WHERE d.driverRef = ? ORDER BY ra.year ASC, ra.round ASC;"
def sql17 : String :=
  "SELECT r.resultId, r.position, r.points, r.grid, r.laps, r.statusId, ra.raceId, ra.year, ra.round, ra.name, ra.date, c.name AS constructor_name, c.constructorRef AS constructor_ref FROM results r JOIN drivers d ON d.driverId = r.driverId JOIN races ra ON ra.raceId = r.raceId JOIN constructors c ON c.constructorId = r.constructorId WHERE d.driverRef = ? AND ra.year BETWEEN ? AND ? ORDER BY ra.year ASC, ra.round ASC;"
def sql18 : String :=
  "SELECT q.qualifyId, q.position, q.q1, q.q2, q.q3, ra.name AS race_name, ra.round AS race_round, ra.year AS race_year, ra.date AS race_date, d.driverRef AS driver_ref, d.code AS driver_code, d.forename AS driver_forename, d.surname AS driver_surname, c.name AS constructor_name, c.constructorRef AS constructor_ref, c.nationality AS constructor_nationality FROM qualifying q JOIN races ra ON ra.raceId = q.raceId JOIN drivers d ON d.driverId = q.driverId JOIN constructors c ON c.constructorId = q.constructorId WHERE q.raceId = ? ORDER BY q.position ASC;"
def sql19 : String :=
  "SELECT ds.position, ds.points, ds.wins, d.driverRef AS driver_ref, d.code AS driver_code, d.forename AS driver_forename, d.surname AS driver_surname FROM driverStandings ds JOIN drivers d ON d.driverId = ds.driverId WHERE ds.raceId = ? ORDER BY ds.position ASC;"
def sql20 : String :=
  "SELECT cs.position, cs.points, cs.wins, c.name AS constructor_name, c.constructorRef AS constructor_ref, c.nationality AS constructor_nationality FROM constructorStandings cs JOIN constructors c ON c.constructorId = cs.constructorId WHERE cs.raceId = ? ORDER BY cs.position ASC;"

/-! ## Query evaluation: the relational semantics of each template.
Joins are nested loops in FROM order; `ORDER BY` is `sortBy` on the key. -/

/-- `ORDER BY year ASC, round ASC` on races. -/
def raceYearRoundLe (a b : Race) : Bool :=
  a.year < b.year || (a.year == b.year && a.round ≤ b.round)

/-- Three-way comparison of character lists: SQLite's BINARY collation
(memcmp on UTF-8 bytes coincides with code-point order). -/
def cmpChars : List Char → List Char → Ordering
  | [], [] => .eq
  | [], _ :: _ => .lt
  | _ :: _, [] => .gt
  | a :: as, b :: bs =>
    if a == b then cmpChars as bs
    else if a.toNat < b.toNat then .lt
    else .gt

/-- Strict BINARY-collation order on strings. -/
def strLtB (a b : String) : Bool := cmpChars a.toList b.toList == .lt

/-- Non-strict BINARY-collation order on strings. -/
def strLeB (a b : String) : Bool := cmpChars a.toList b.toList != .gt

/-- `ORDER BY surname ASC, forename ASC` on drivers. -/
def surnameForenameLe (a b : Driver) : Bool :=
  match cmpChars a.surname.toList b.surname.toList with
  | .lt => true
  | .gt => false
  | .eq => strLeB a.forename b.forename

/-- Operation 1: all circuits. -/
def q1 (db : DB) : List Row := db.circuits.map circuitRow

/-- Operation 2: circuit by `circuitRef`. -/
def q2 (db : DB) (circuitRef : String) : List Row :=
  (db.circuits.filter (fun c => c.circuitRef == circuitRef)).map circuitRow

/-- Operation 3: circuits of a season, ordered by round. -/
def q3pairs (db : DB) (year : String) : List (Circuit × Race) :=
  db.circuits.flatMap (fun c => db.races.flatMap (fun r =>
    if c.circuitId == r.circuitId && textEqInt year r.year then [(c, r)] else []))

def q3 (db : DB) (year : String) : List Row :=
  (sortBy (fun a b => a.2.round ≤ b.2.round) (q3pairs db year)).map (fun p => circuitRow p.1)

/-- Operation 4: all constructors. -/
def q4 (db : DB) : List Row := db.constructors.map constructorRow

/-- Operation 5: constructor by `constructorRef`. -/
def q5 (db : DB) (ref : String) : List Row :=
  (db.constructors.filter (fun c => c.constructorRef == ref)).map constructorRow

/-- Operation 6: all drivers. -/
def q6 (db : DB) : List Row := db.drivers.map driverRow

/-- Operation 7: driver by `driverRef`. -/
def q7 (db : DB) (ref : String) : List Row :=
  (db.drivers.filter (fun d => d.driverRef == ref)).map driverRow

/-- Operation 8, pre-projection: drivers whose lowered surname matches
`LOWER(?) || \x27%\x27`, ordered by surname then forename. -/
def q8drivers (db : DB) (substring : String) : List Driver :=
  sortBy surnameForenameLe
    (db.drivers.filter (fun d =>
      likeMatch ((sqliteLower substring).toList ++ ['%']) ((sqliteLower d.surname).toList)))

def q8 (db : DB) (substring : String) : List Row :=
  (q8drivers db substring).map driverRow

/-- Operation 9: drivers of a race, ordered by grid. -/
def q9pairs (db : DB) (raceId : String) : List (ResultRow × Driver) :=
  db.results.flatMap (fun r => db.drivers.flatMap (fun d =>
    if d.driverId == r.driverId && textEqInt raceId r.raceId then [(r, d)] else []))

def q9 (db : DB) (raceId : String) : List Row :=
  (sortBy (fun a b => a.1.grid ≤ b.1.grid) (q9pairs db raceId)).map (fun p => driverRow p.2)

/-- Operation 10: race by id with inlined circuit columns. -/
def q10pairs (db : DB) (raceId : String) : List (Race × Circuit) :=
  db.races.flatMap (fun r => db.circuits.flatMap (fun c =>
    if c.circuitId == r.circuitId && textEqInt raceId r.raceId then [(r, c)] else []))

def q10 (db : DB) (raceId : String) : List Row :=
  (q10pairs db raceId).map (fun p => race10Row p.1 p.2)

/-- Operation 11: races of a season, ordered by round. -/
def q11races (db : DB) (year : String) : List Race :=
  sortBy (fun a b => a.round ≤ b.round) (db.races.filter (fun r => textEqInt year r.year))

def q11 (db : DB) (year : String) : List Row := (q11races db year).map raceRow

/-- Operation 12: race by season and round. -/
def q12 (db : DB) (year round : String) : List Row :=
  (db.races.filter (fun r => textEqInt year r.year && textEqInt round r.round)).map raceRow

/-- Operation 13: races of a circuit, ordered by year then round. -/
def q13races (db : DB) (ref : String) : List Race :=
  sortBy raceYearRoundLe
    (db.races.flatMap (fun r => db.circuits.flatMap (fun c =>
      if c.circuitId == r.circuitId && c.circuitRef == ref then [r] else [])))

def q13 (db : DB) (ref : String) : List Row := (q13races db ref).map raceRow

/-- Operation 14: races of a circuit within a year range, ordered by year then round. -/
def q14races (db : DB) (ref start finish : String) : List Race :=
  sortBy raceYearRoundLe
    (db.races.flatMap (fun r => db.circuits.flatMap (fun c =>
      if c.circuitId == r.circuitId && c.circuitRef == ref && yearBetween r.year start finish
      then [r] else [])))

def q14 (db : DB) (ref start finish : String) : List Row := (q14races db ref start finish).map raceRow

/-- Operation 15: results of a race with inlined race/driver/constructor, ordered by grid. -/
def q15tuples (db : DB) (raceId : String) : List (ResultRow × Race × Driver × Constructor) :=
  db.results.flatMap (fun r => db.races.flatMap (fun ra => db.drivers.flatMap (fun d =>
    db.constructors.flatMap (fun c =>
      if ra.raceId == r.raceId && d.driverId == r.driverId && c.constructorId == r.constructorId
          && textEqInt raceId r.raceId
      then [(r, ra, d, c)] else []))))

def q15 (db : DB) (raceId : String) : List Row :=
  (sortBy (fun a b => a.1.grid ≤ b.1.grid) (q15tuples db raceId)).map
    (fun t => result15Row t.1 t.2.1 t.2.2.1 t.2.2.2)

/-- Operation 16: results of a driver, ordered by year then round. -/
def q16tuples (db : DB) (ref : String) : List (ResultRow × Race × Constructor) :=
  db.results.flatMap (fun r => db.drivers.flatMap (fun d => db.races.flatMap (fun ra =>
    db.constructors.flatMap (fun c =>
      if d.driverId == r.driverId && ra.raceId == r.raceId && c.constructorId == r.constructorId
          && d.driverRef == ref
      then [(r, ra, c)] else []))))

def q16 (db : DB) (ref : String) : List Row :=
  (sortBy (fun a b => raceYearRoundLe a.2.1 b.2.1) (q16tuples db ref)).map
    (fun t => result16Row t.1 t.2.1 t.2.2)

/-- Operation 17: results of a driver within a year range, ordered by year then round. -/
def q17tuples (db : DB) (ref start finish : String) : List (ResultRow × Race × Constructor) :=
  db.results.flatMap (fun r => db.drivers.flatMap (fun d => db.races.flatMap (fun ra =>
    db.constructors.flatMap (fun c =>
      if d.driverId == r.driverId && ra.raceId == r.raceId && c.constructorId == r.constructorId
          && d.driverRef == ref && yearBetween ra.year start finish
      then [(r, ra, c)] else []))))

def q17 (db : DB) (ref start finish : String) : List Row :=
  (sortBy (fun a b => raceYearRoundLe a.2.1 b.2.1) (q17tuples db ref start finish)).map
    (fun t => result16Row t.1 t.2.1 t.2.2)

/-- Operation 18: qualifying of a race, ordered by position. -/
def q18tuples (db : DB) (raceId : String) : List (Qualifying × Race × Driver × Constructor) :=
  db.qualifying.flatMap (fun q => db.races.flatMap (fun ra => db.drivers.flatMap (fun d =>
    db.constructors.flatMap (fun c =>
      if ra.raceId == q.raceId && d.driverId == q.driverId && c.constructorId == q.constructorId
          && textEqInt raceId q.raceId
      then [(q, ra, d, c)] else []))))

def q18 (db : DB) (raceId : String) : List Row :=
  (sortBy (fun a b => a.1.position ≤ b.1.position) (q18tuples db raceId)).map
    (fun t => qual18Row t.1 t.2.1 t.2.2.1 t.2.2.2)

/-- Operation 19: driver standings at a race, ordered by position. -/
def q19pairs (db : DB) (raceId : String) : List (DriverStanding × Driver) :=
  db.driverStandings.flatMap (fun ds => db.drivers.flatMap (fun d =>
    if d.driverId == ds.driverId && textEqInt raceId ds.raceId then [(ds, d)] else []))

def q19 (db : DB) (raceId : String) : List Row :=
  (sortBy (fun a b => a.1.position ≤ b.1.position) (q19pairs db raceId)).map
    (fun p => ds19Row p.1 p.2)

/-- Operation 20: constructor standings at a race, ordered by position. -/
def q20pairs (db : DB) (raceId : String) : List (ConstructorStanding × Constructor) :=
  db.constructorStandings.flatMap (fun cs => db.constructors.flatMap (fun c =>
    if c.constructorId == cs.constructorId && textEqInt raceId cs.raceId then [(cs, c)] else []))

def q20 (db : DB) (raceId : String) : List Row :=
  (sortBy (fun a b => a.1.position ≤ b.1.position) (q20pairs db raceId)).map
    (fun p => cs20Row p.1 p.2)

/-! ## The 20 route handlers (server.js lines 32-397). -/

/-- 1) `GET /api/circuits`. -/
def apiCircuits (db : DB) : HandlerOut :=
  ⟨respondAll (q1 db) noDataMsg, some ⟨sql1, []⟩⟩

/-- 2) `GET /api/circuits/:circuitRef`. -/
def apiCircuitsRef (db : DB) (circuitRef : String) : HandlerOut :=
  ⟨respondGet (q2 db circuitRef) noDataMsg, some ⟨sql2, [circuitRef]⟩⟩

/-- 3) `GET /api/circuits/season/:year` (no integer validation in the source). -/
def apiCircuitsSeason (db : DB) (year : String) : HandlerOut :=
  ⟨respondAll (q3 db year) ("No circuits found for season " ++ year ++ "."), some ⟨sql3, [year]⟩⟩

/-- 4) `GET /api/constructors`. -/
def apiConstructors (db : DB) : HandlerOut :=
  ⟨respondAll (q4 db) noDataMsg, some ⟨sql4, []⟩⟩

/-- 5) `GET /api/constructors/:ref`. -/
def apiConstructorsRef (db : DB) (ref : String) : HandlerOut :=
  ⟨respondGet (q5 db ref) ("No constructor found with ref \x27" ++ ref ++ "\x27."),
   some ⟨sql5, [ref]⟩⟩

/-- 6) `GET /api/drivers`. -/
def apiDrivers (db : DB) : HandlerOut :=
  ⟨respondAll (q6 db) noDataMsg, some ⟨sql6, []⟩⟩

/-- 7) `GET /api/drivers/:ref`. -/
def apiDriversRef (db : DB) (ref : String) : HandlerOut :=
  ⟨respondGet (q7 db ref) ("No driver found with ref \x27" ++ ref ++ "\x27."),
   some ⟨sql7, [ref]⟩⟩

/-- 8) `GET /api/drivers/search/:substring`. -/
def apiDriversSearch (db : DB) (substring : String) : HandlerOut :=
  ⟨respondAll (q8 db substring)
      ("No drivers with surname starting \x27" ++ substring ++ "\x27."),
   some ⟨sql8, [substring]⟩⟩

/-- 9) `GET /api/drivers/race/:raceId`. -/
def apiDriversRace (db : DB) (raceId : String) : HandlerOut :=
  if !(isInt raceId) then ⟨badReq "raceId must be an integer.", none⟩
  else
    ⟨respondAll (q9 db raceId) ("No drivers found for raceId " ++ raceId ++ "."),
     some ⟨sql9, [raceId]⟩⟩

/-- 10) `GET /api/races/:raceId`. -/
def apiRacesId (db : DB) (raceId : String) : HandlerOut :=
  if !(isInt raceId) then ⟨badReq "raceId must be an integer.", none⟩
  else
    ⟨respondGet (q10 db raceId) ("No race found with id " ++ raceId ++ "."),
     some ⟨sql10, [raceId]⟩⟩

/-- 11) `GET /api/races/season/:year`. -/
def apiRacesSeason (db : DB) (year : String) : HandlerOut :=
  if !(isInt year) then ⟨badReq "Year must be an integer.", none⟩
  else
    ⟨respondAll (q11 db year) ("No races for season " ++ year ++ "."), some ⟨sql11, [year]⟩⟩

/-- 12) `GET /api/races/season/:year/:round`. -/
def apiRacesSeasonRound (db : DB) (year round : String) : HandlerOut :=
  if !(isInt year) || !(isInt round) then ⟨badReq "Year and round must be integers.", none⟩
  else
    ⟨respondGet (q12 db year round)
        ("No race for season " ++ year ++ ", round " ++ round ++ "."),
     some ⟨sql12, [year, round]⟩⟩

/-- 13) `GET /api/races/circuits/:ref`. -/
def apiRacesCircuits (db : DB) (ref : String) : HandlerOut :=
  ⟨respondAll (q13 db ref) ("No races for circuit \x27" ++ ref ++ "\x27."),
   some ⟨sql13, [ref]⟩⟩

/-- 14) `GET /api/races/circuits/:ref/season/:start/:end`. -/
def apiRacesCircuitsSeasonRange (db : DB) (ref start finish : String) : HandlerOut :=
  if !(isInt start) || !(isInt finish) then ⟨badReq "start and end must be integers.", none⟩
  else if jsLtB (jsToNumber finish) (jsToNumber start) then
    ⟨badReq "end year must be >= start year.", none⟩
  else
    ⟨respondAll (q14 db ref start finish)
        ("No races for \x27" ++ ref ++ "\x27 between " ++ start ++ " and " ++ finish ++ "."),
     some ⟨sql14, [ref, start, finish]⟩⟩

/-- 15) `GET /api/results/:raceId`. -/
def apiResultsRace (db : DB) (raceId : String) : HandlerOut :=
  if !(isInt raceId) then ⟨badReq "raceId must be an integer.", none⟩
  else
    ⟨respondAll (q15 db raceId) ("No results for raceId " ++ raceId ++ "."),
     some ⟨sql15, [raceId]⟩⟩

/-- 16) `GET /api/results/driver/:ref`. -/
def apiResultsDriver (db : DB) (ref : String) : HandlerOut :=
  ⟨respondAll (q16 db ref) ("No results for driver \x27" ++ ref ++ "\x27."),
   some ⟨sql16, [ref]⟩⟩

/-- 17) `GET /api/results/drivers/:ref/seasons/:start/:end`. -/
def apiResultsDriverSeasons (db : DB) (ref start finish : String) : HandlerOut :=
  if !(isInt start) || !(isInt finish) then ⟨badReq "start and end must be integers.", none⟩
  else if jsLtB (jsToNumber finish) (jsToNumber start) then
    ⟨badReq "end year must be >= start year.", none⟩
  else
    ⟨respondAll (q17 db ref start finish)
        ("No results for \x27" ++ ref ++ "\x27 between " ++ start ++ " and " ++ finish ++ "."),
     some ⟨sql17, [ref, start, finish]⟩⟩

/-- 18) `GET /api/qualifying/:raceId`. -/
def apiQualifyingRace (db : DB) (raceId : String) : HandlerOut :=
  if !(isInt raceId) then ⟨badReq "raceId must be an integer.", none⟩
  else
    ⟨respondAll (q18 db raceId) ("No qualifying for raceId " ++ raceId ++ "."),
     some ⟨sql18, [raceId]⟩⟩

/-- 19) `GET /api/standings/drivers/:raceId`. -/
def apiStandingsDrivers (db : DB) (raceId : String) : HandlerOut :=
  if !(isInt raceId) then ⟨badReq "raceId must be an integer.", none⟩
  else
    ⟨respondAll (q19 db raceId) ("No driver standings for raceId " ++ raceId ++ "."),
     some ⟨sql19, [raceId]⟩⟩

/-- 20) `GET /api/standings/constructors/:raceId`. -/
def apiStandingsConstructors (db : DB) (raceId : String) : HandlerOut :=
  if !(isInt raceId) then ⟨badReq "raceId must be an integer.", none⟩
  else
    ⟨respondAll (q20 db raceId) ("No constructor standings for raceId " ++ raceId ++ "."),
     some ⟨sql20, [raceId]⟩⟩

/-! ## General lemmas about the embedding's building blocks. -/

theorem mem_insertLe {α : Type} (le : α → α → Bool) (a x : α) (l : List α) :
    x ∈ insertLe le a l ↔ x = a ∨ x ∈ l := by
  induction l with
  | nil => simp [insertLe]
  | cons b bs ih =>
    by_cases h : le a b = true
    · simp only [insertLe, h, if_true, List.mem_cons]
    · simp only [insertLe, h, if_false, Bool.false_eq_true, List.mem_cons, ih]
      tauto

theorem insertLe_perm {α : Type} (le : α → α → Bool) (a : α) (l : List α) :
    List.Perm (insertLe le a l) (a :: l) := by
  induction l with
  | nil => exact List.Perm.refl _
  | cons b bs ih =>
    by_cases h : le a b = true
    · simp only [insertLe, h, if_true]
      exact List.Perm.refl _
    · simp only [insertLe, h, if_false, Bool.false_eq_true]
      exact (List.Perm.cons b ih).trans (List.Perm.swap a b bs)

theorem sortBy_perm {α : Type} (le : α → α → Bool) (l : List α) :
    List.Perm (sortBy le l) l := by
  induction l with
  | nil => exact List.Perm.refl _
  | cons a as ih => exact (insertLe_perm le a (sortBy le as)).trans (List.Perm.cons a ih)

theorem mem_sortBy {α : Type} (le : α → α → Bool) (x : α) (l : List α) :
    x ∈ sortBy le l ↔ x ∈ l :=
  (sortBy_perm le l).mem_iff

theorem pairwise_insertLe {α : Type} (le : α → α → Bool)
    (htrans : ∀ a b c, le a b = true → le b c = true → le a c = true)
    (htot : ∀ a b, le a b = true ∨ le b a = true) (a : α) (l : List α)
    (h : l.Pairwise (fun x y => le x y = true)) :
    (insertLe le a l).Pairwise (fun x y => le x y = true) := by
  induction l with
  | nil => simp [insertLe]
  | cons b bs ih =>
    rcases List.pairwise_cons.mp h with ⟨hb, hbs⟩
    by_cases hab : le a b = true
    · simp only [insertLe, hab, if_true]
      refine List.pairwise_cons.mpr ⟨?_, h⟩
      intro x hx
      rcases List.mem_cons.mp hx with rfl | hx2
      · exact hab
      · exact htrans a b x hab (hb x hx2)
    · simp only [insertLe, hab, if_false, Bool.false_eq_true]
      refine List.pairwise_cons.mpr ⟨?_, ih hbs⟩
      intro x hx
      rcases (mem_insertLe le a x bs).mp hx with hEq | hx2
      · rw [hEq]
        rcases htot a b with h1 | h1
        · exact absurd h1 hab
        · exact h1
      · exact hb x hx2

theorem pairwise_sortBy {α : Type} (le : α → α → Bool)
    (htrans : ∀ a b c, le a b = true → le b c = true → le a c = true)
    (htot : ∀ a b, le a b = true ∨ le b a = true) (l : List α) :
    (sortBy le l).Pairwise (fun x y => le x y = true) := by
  induction l with
  | nil => simp [sortBy]
  | cons a as ih => exact pairwise_insertLe le htrans htot a (sortBy le as) ih

theorem likeMatch_percent (ts : List Char) : likeMatch ['%'] ts = true := by
  simp only [likeMatch, if_true, List.any_eq_true]
  refine ⟨[], ?_, rfl⟩
  rw [List.mem_tails]
  exact List.nil_suffix

/-- The substring has no LIKE metacharacters. -/
def noWildcard (l : List Char) : Bool := l.all (fun c => !(c == '%' || c == '_'))

theorem likeMatch_prefix_eq (sub ts : List Char) (h : noWildcard sub = true) :
    likeMatch (sub ++ ['%']) ts = (sub.map lowChar).isPrefixOf (ts.map lowChar) := by
  induction sub generalizing ts with
  | nil =>
    simp only [List.nil_append, likeMatch_percent, List.map_nil, List.isPrefixOf]
  | cons c cs ih =>
    have h2 : (!(c == '%' || c == '_')) = true ∧ noWildcard cs = true := by
      simpa only [noWildcard, List.all_cons, Bool.and_eq_true] using h
    obtain ⟨hcb, hcs⟩ := h2
    have hc : c ≠ '%' ∧ c ≠ '_' := by
      simpa only [Bool.not_eq_eq_eq_not, Bool.not_true, Bool.or_eq_false_iff,
        beq_eq_false_iff_ne, ne_eq] using hcb
    cases ts with
    | nil =>
      simp only [List.cons_append, likeMatch, if_neg hc.1, if_neg hc.2, List.map_nil,
        List.map_cons]
      rfl
    | cons t ts2 =>
      simp only [List.cons_append, likeMatch, if_neg hc.1, if_neg hc.2, List.map_cons,
        List.append_eq]
      rw [show likeMatch (cs ++ ['%']) ts2 = (cs.map lowChar).isPrefixOf (ts2.map lowChar)
        from ih ts2 hcs]
      rfl

theorem strContains_append (a n b : String) : strContains (a ++ n ++ b) n = true := by
  unfold strContains
  rw [List.any_eq_true]
  refine ⟨n.toList ++ b.toList, ?_, ?_⟩
  · rw [List.mem_tails]
    have he : (a ++ n ++ b).toList = a.toList ++ (n.toList ++ b.toList) := by
      simp [String.toList, String.data_append, List.append_assoc]
    rw [he]
    exact List.suffix_append _ _
  · rw [List.isPrefixOf_iff_prefix]
    exact List.prefix_append _ _

theorem respondAll_status200 (rows : List Row) (msg : String) :
    (respondAll rows msg).statusCode = 200 ↔ rows ≠ [] := by
  by_cases h : rows = []
  · subst h
    simp [respondAll, Resp.statusCode]
  · simp only [respondAll, List.isEmpty_iff, h, if_false]
    simp [Resp.statusCode, h]

theorem respondAll_arr (rows : List Row) (msg : String) (rows2 : List Row)
    (h : respondAll rows msg = .jsonArr rows2) : rows2 = rows ∧ rows ≠ [] := by
  by_cases he : rows = []
  · subst he
    simp [respondAll] at h
  · simp only [respondAll, List.isEmpty_iff, he, if_false] at h
    cases h
    exact ⟨rfl, he⟩

theorem respondAll_404 (rows : List Row) (msg : String) (h : rows = []) :
    (respondAll rows msg).statusCode = 404 := by
  subst h
  simp [respondAll, Resp.statusCode]

theorem respondGet_404 (rows : List Row) (msg : String) (h : rows = []) :
    (respondGet rows msg).statusCode = 404 := by
  subst h
  simp [respondGet, Resp.statusCode]

theorem respondGet_status200 (rows : List Row) (msg : String) :
    (respondGet rows msg).statusCode = 200 ↔ rows ≠ [] := by
  cases rows with
  | nil => simp [respondGet, Resp.statusCode]
  | cons r rs => simp [respondGet, Resp.statusCode]

theorem respondGet_obj (rows : List Row) (msg : String) (row : Row)
    (h : respondGet rows msg = .jsonObj row) : row ∈ rows := by
  cases rows with
  | nil => simp [respondGet] at h
  | cons r rs =>
    simp only [respondGet, List.head?_cons] at h
    cases h
    exact List.mem_cons_self _ _

theorem respondGet_eq_404 (rows : List Row) (msg : String) (h : rows = []) :
    respondGet rows msg = .status404 msg := by
  subst h
  rfl

theorem isInt_of_nan (p : String) (h : jsToNumber p = .nan) : isInt p = false := by
  simp [isInt, h]

theorem char_toNat_inj {a b : Char} (h : a.toNat = b.toNat) : a = b := by
  apply Char.ext
  unfold Char.toNat at h
  exact UInt32.toNat.inj h

theorem cmpChars_eq_iff (as bs : List Char) : cmpChars as bs = .eq ↔ as = bs := by
  induction as generalizing bs with
  | nil => cases bs <;> simp [cmpChars]
  | cons a as2 ih =>
    cases bs with
    | nil => simp [cmpChars]
    | cons b bs2 =>
      by_cases hab : a = b
      · subst hab
        simp [cmpChars, ih]
      · have hb : (a == b) = false := by simpa using hab
        by_cases hlt : a.toNat < b.toNat
        · simp [cmpChars, hb, hlt, hab]
        · simp [cmpChars, hb, hlt, hab]

theorem cmpChars_swap (as bs : List Char) : cmpChars bs as = (cmpChars as bs).swap := by
  induction as generalizing bs with
  | nil => cases bs <;> simp [cmpChars, Ordering.swap]
  | cons a as2 ih =>
    cases bs with
    | nil => simp [cmpChars, Ordering.swap]
    | cons b bs2 =>
      by_cases hab : a = b
      · subst hab
        simp [cmpChars, ih]
      · have hb : (a == b) = false := by simpa using hab
        have hba : (b == a) = false := by simpa using (Ne.symm hab)
        have hne : a.toNat ≠ b.toNat := fun hx => hab (char_toNat_inj hx)
        by_cases hlt : a.toNat < b.toNat
        · have hgt : ¬ b.toNat < a.toNat := by omega
          simp [cmpChars, hb, hba, hlt, hgt, Ordering.swap]
        · have hgt : b.toNat < a.toNat := by omega
          simp [cmpChars, hb, hba, hlt, hgt, Ordering.swap]

theorem cmpChars_lt_trans {as bs cs : List Char} (h1 : cmpChars as bs = .lt)
    (h2 : cmpChars bs cs = .lt) : cmpChars as cs = .lt := by
  induction as generalizing bs cs with
  | nil =>
    cases bs with
    | nil => simp [cmpChars] at h1
    | cons b bs2 =>
      cases cs with
      | nil => simp [cmpChars] at h2
      | cons c cs2 => simp [cmpChars]
  | cons a as2 ih =>
    cases bs with
    | nil => simp [cmpChars] at h1
    | cons b bs2 =>
      cases cs with
      | nil => simp [cmpChars] at h2
      | cons c cs2 =>
        by_cases hab : a = b
        · subst hab
          simp only [cmpChars, beq_self_eq_true, if_true] at h1
          by_cases hac : a = c
          · subst hac
            simp only [cmpChars, beq_self_eq_true, if_true] at h2 ⊢
            exact ih h1 h2
          · have hacb : (a == c) = false := by simpa using hac
            simp only [cmpChars, hacb, Bool.false_eq_true, if_false] at h2 ⊢
            exact h2
        · have hb : (a == b) = false := by simpa using hab
          simp only [cmpChars, hb, Bool.false_eq_true, if_false] at h1
          have hanb : a.toNat < b.toNat := by
            by_contra hx
            simp [hx] at h1
          by_cases hbc : b = c
          · subst hbc
            simp only [cmpChars, hb, Bool.false_eq_true, if_false, hanb, if_true]
          · have hbcb : (b == c) = false := by simpa using hbc
            simp only [cmpChars, hbcb, Bool.false_eq_true, if_false] at h2
            have hbnc : b.toNat < c.toNat := by
              by_contra hx
              simp [hx] at h2
            have hanc : a.toNat < c.toNat := by omega
            have hacne : a ≠ c := by
              intro hx
              rw [hx] at hanb
              omega
            have hacb : (a == c) = false := by simpa using hacne
            simp [cmpChars, hacb, hanc]

theorem strLeB_eq (a b : String) : strLeB a b = (cmpChars a.data b.data != Ordering.gt) := rfl

theorem strLeB_total (a b : String) : strLeB a b = true ∨ strLeB b a = true := by
  rw [strLeB_eq, strLeB_eq, cmpChars_swap a.data b.data]
  cases cmpChars a.data b.data with
  | lt => left; decide
  | eq => left; decide
  | gt => right; decide

theorem strLeB_trans {a b c : String} (h1 : strLeB a b = true) (h2 : strLeB b c = true) :
    strLeB a c = true := by
  rw [strLeB_eq] at h1 h2 ⊢
  cases hab : cmpChars a.data b.data with
  | gt => rw [hab] at h1; exact absurd h1 (by decide)
  | eq =>
    have he : a.data = b.data := (cmpChars_eq_iff _ _).mp hab
    rw [he]
    exact h2
  | lt =>
    cases hbc : cmpChars b.data c.data with
    | gt => rw [hbc] at h2; exact absurd h2 (by decide)
    | eq =>
      have he : b.data = c.data := (cmpChars_eq_iff _ _).mp hbc
      rw [← he, hab]
      decide
    | lt =>
      rw [cmpChars_lt_trans hab hbc]
      decide

theorem surnameForenameLe_eq (a b : Driver) :
    surnameForenameLe a b =
      (match cmpChars a.surname.data b.surname.data with
       | .lt => true
       | .gt => false
       | .eq => strLeB a.forename b.forename) := rfl

theorem surnameForenameLe_total (a b : Driver) :
    surnameForenameLe a b = true ∨ surnameForenameLe b a = true := by
  rw [surnameForenameLe_eq, surnameForenameLe_eq,
    cmpChars_swap a.surname.data b.surname.data]
  cases cmpChars a.surname.data b.surname.data with
  | lt => left; rfl
  | gt => right; rfl
  | eq => exact strLeB_total a.forename b.forename

theorem surnameForenameLe_trans {a b c : Driver} (h1 : surnameForenameLe a b = true)
    (h2 : surnameForenameLe b c = true) : surnameForenameLe a c = true := by
  rw [surnameForenameLe_eq] at h1 h2 ⊢
  cases hab : cmpChars a.surname.data b.surname.data with
  | gt => rw [hab] at h1; simp at h1
  | eq =>
    have he : a.surname.data = b.surname.data := (cmpChars_eq_iff _ _).mp hab
    rw [hab] at h1
    rw [he]
    cases hbc : cmpChars b.surname.data c.surname.data with
    | lt => rfl
    | gt => rw [hbc] at h2; simp at h2
    | eq =>
      rw [hbc] at h2
      exact strLeB_trans h1 h2
  | lt =>
    cases hbc : cmpChars b.surname.data c.surname.data with
    | gt => rw [hbc] at h2; simp at h2
    | eq =>
      have he : b.surname.data = c.surname.data := (cmpChars_eq_iff _ _).mp hbc
      rw [← he, hab]
    | lt =>
      rw [cmpChars_lt_trans hab hbc]

theorem raceYearRoundLe_total (a b : Race) :
    raceYearRoundLe a b = true ∨ raceYearRoundLe b a = true := by
  unfold raceYearRoundLe
  simp only [Bool.or_eq_true, Bool.and_eq_true, decide_eq_true_eq, beq_iff_eq]
  omega

theorem raceYearRoundLe_trans {a b c : Race} (h1 : raceYearRoundLe a b = true)
    (h2 : raceYearRoundLe b c = true) : raceYearRoundLe a c = true := by
  unfold raceYearRoundLe at h1 h2 ⊢
  simp only [Bool.or_eq_true, Bool.and_eq_true, decide_eq_true_eq, beq_iff_eq] at h1 h2 ⊢
  omega

/-- Sorting by an integer key yields a list pairwise ordered on that key. -/
theorem pairwise_sortBy_intKey {α : Type} (key : α → Int) (l : List α) :
    (sortBy (fun a b => decide (key a ≤ key b)) l).Pairwise (fun a b => key a ≤ key b) := by
  have h := pairwise_sortBy (fun a b => decide (key a ≤ key b))
    (by
      intro a b c hab hbc
      simp only [decide_eq_true_eq] at hab hbc ⊢
      omega)
    (by
      intro a b
      simp only [decide_eq_true_eq]
      omega) l
  exact h.imp (by
    intro a b hx
    simpa using hx)

theorem leInt_exp0 (sv y : Int) : Dec.leInt ⟨sv, 0⟩ y = decide (sv ≤ y) := by
  simp [Dec.leInt]

theorem geInt_exp0 (sv y : Int) : Dec.geInt ⟨sv, 0⟩ y = decide (y ≤ sv) := by
  simp [Dec.geInt]

theorem eqInt_exp0 {v y : Int} : Dec.eqInt ⟨v, 0⟩ y = true ↔ v = y := by
  simp [Dec.eqInt]

/-! ## Concrete sample data used by the witnesses. -/

def sampleCircuit : Circuit := ⟨1, "monza", "Autodromo Nazionale di Monza", "Monza", "Italy"⟩

def sampleConstructor : Constructor := ⟨1, "mclaren", "McLaren", "British"⟩

def sampleDriver : Driver := ⟨1, "hamilton", some "HAM", "Lewis", "Hamilton"⟩

def sampleDriver2 : Driver := ⟨2, "max_verstappen", some "VER", "Max", "Verstappen"⟩

def sampleRace : Race := ⟨1106, 2022, 4, 1, "Emilia Romagna Grand Prix", "2022-04-24", none, "u"⟩

def sampleResult : ResultRow := ⟨1, 1106, 1, 1, 3, some 1, "1", 25, 63, 1⟩

def sampleResult2 : ResultRow := ⟨2, 1106, 2, 1, 5, some 2, "2", 18, 63, 1⟩

def sampleQual : Qualifying := ⟨1, 1106, 1, 1, 1, some "1:18.316", none, none⟩

def sampleDS : DriverStanding := ⟨1106, 1, 1, 25, 1⟩

def sampleCS : ConstructorStanding := ⟨1106, 1, 1, 25, 1⟩

def sampleDB : DB :=
  ⟨[sampleCircuit], [sampleConstructor], [sampleDriver, sampleDriver2], [sampleRace],
   [sampleResult, sampleResult2], [sampleQual], [sampleDS], [sampleCS]⟩

/-- The empty database (used to exercise the empty-result paths). -/
def emptyDB : DB := ⟨[], [], [], [], [], [], [], []⟩

/-! ## Claim C1. -/

/-- C1: for every operation that declares an integer-typed path parameter
(`raceId` in operations 9, 10, 15, 18, 19, 20; `year` in 11; `year` and
`round` in 12; `start` and `end` in 14 and 17), a non-numeric parameter string
(JavaScript `Number` conversion is NaN) yields status 400 with an error body,
and the data-store query is never executed (`call = none`). -/
theorem c1_nonnumeric_int_param_yields_400_no_query (db : DB) (p q r : String) :
    (jsToNumber p = .nan →
      apiDriversRace db p = ⟨badReq "raceId must be an integer.", none⟩ ∧
      apiRacesId db p = ⟨badReq "raceId must be an integer.", none⟩ ∧
      apiResultsRace db p = ⟨badReq "raceId must be an integer.", none⟩ ∧
      apiQualifyingRace db p = ⟨badReq "raceId must be an integer.", none⟩ ∧
      apiStandingsDrivers db p = ⟨badReq "raceId must be an integer.", none⟩ ∧
      apiStandingsConstructors db p = ⟨badReq "raceId must be an integer.", none⟩ ∧
      apiRacesSeason db p = ⟨badReq "Year must be an integer.", none⟩) ∧
    (jsToNumber p = .nan ∨ jsToNumber q = .nan →
      apiRacesSeasonRound db p q = ⟨badReq "Year and round must be integers.", none⟩) ∧
    (jsToNumber q = .nan ∨ jsToNumber r = .nan →
      apiRacesCircuitsSeasonRange db p q r = ⟨badReq "start and end must be integers.", none⟩ ∧
      apiResultsDriverSeasons db p q r = ⟨badReq "start and end must be integers.", none⟩) := by
  refine ⟨?_, ?_, ?_⟩
  · intro h
    have hf : isInt p = false := isInt_of_nan p h
    refine ⟨?_, ?_, ?_, ?_, ?_, ?_, ?_⟩ <;>
      simp [apiDriversRace, apiRacesId, apiResultsRace, apiQualifyingRace,
        apiStandingsDrivers, apiStandingsConstructors, apiRacesSeason, hf]
  · intro h
    rcases h with h | h <;>
      simp [apiRacesSeasonRound, isInt_of_nan _ h]
  · intro h
    rcases h with h | h <;>
      constructor <;>
        simp [apiRacesCircuitsSeasonRange, apiResultsDriverSeasons, isInt_of_nan _ h]

/-- Witness for C1: concrete non-numeric parameters are rejected without a query. -/
theorem c1_witness :
    apiDriversRace sampleDB "abc" = ⟨badReq "raceId must be an integer.", none⟩ ∧
    apiRacesSeasonRound sampleDB "2022" "4x" = ⟨badReq "Year and round must be integers.", none⟩ ∧
    apiRacesCircuitsSeasonRange sampleDB "monza" "2015" "20x0" =
      ⟨badReq "start and end must be integers.", none⟩ :=
  ⟨((c1_nonnumeric_int_param_yields_400_no_query sampleDB "abc" "x" "y").1 (by decide)).1,
   (c1_nonnumeric_int_param_yields_400_no_query sampleDB "2022" "4x" "y").2.1
     (Or.inr (by decide)),
   ((c1_nonnumeric_int_param_yields_400_no_query sampleDB "monza" "2015" "20x0").2.2
     (Or.inr (by decide))).1⟩

/-! ## Claim C3. -/

/-- The empty-result contract of one operation: a 200 response always carries a
non-empty body, and an executed query with zero result rows yields 404. -/
def okNonemptyContract (h : HandlerOut) (rows : List Row) : Prop :=
  (h.resp.statusCode = 200 → h.resp.bodyRows ≠ []) ∧
  (rows = [] → h.resp.statusCode = 404)

theorem respondAll_ok (rows : List Row) (msg : String) :
    ((respondAll rows msg).statusCode = 200 → (respondAll rows msg).bodyRows ≠ []) ∧
    (rows = [] → (respondAll rows msg).statusCode = 404) := by
  constructor
  · intro h
    have hne : rows ≠ [] := (respondAll_status200 rows msg).mp h
    simp only [respondAll, List.isEmpty_iff, hne, if_false]
    simpa [Resp.bodyRows] using hne
  · exact respondAll_404 rows msg

theorem respondGet_ok (rows : List Row) (msg : String) :
    ((respondGet rows msg).statusCode = 200 → (respondGet rows msg).bodyRows ≠ []) ∧
    (rows = [] → (respondGet rows msg).statusCode = 404) := by
  constructor
  · intro h
    cases rows with
    | nil => simp [respondGet, Resp.statusCode] at h
    | cons x xs => simp [respondGet, Resp.bodyRows]
  · exact respondGet_404 rows msg

/-- C3: for every one of the 20 operations, a query yielding zero rows (or no
row for a single-entity lookup) produces status 404, and no operation returns
status 200 with an empty array or missing object.  For the operations with
parameter validation the contract is stated under `call.isSome`, i.e. for
requests whose query actually executed. -/
theorem c3_empty_result_404_never_empty_200 (db : DB) (p q r : String) :
    okNonemptyContract (apiCircuits db) (q1 db) ∧
    okNonemptyContract (apiCircuitsRef db p) (q2 db p) ∧
    okNonemptyContract (apiCircuitsSeason db p) (q3 db p) ∧
    okNonemptyContract (apiConstructors db) (q4 db) ∧
    okNonemptyContract (apiConstructorsRef db p) (q5 db p) ∧
    okNonemptyContract (apiDrivers db) (q6 db) ∧
    okNonemptyContract (apiDriversRef db p) (q7 db p) ∧
    okNonemptyContract (apiDriversSearch db p) (q8 db p) ∧
    ((apiDriversRace db p).call.isSome →
      okNonemptyContract (apiDriversRace db p) (q9 db p)) ∧
    ((apiRacesId db p).call.isSome →
      okNonemptyContract (apiRacesId db p) (q10 db p)) ∧
    ((apiRacesSeason db p).call.isSome →
      okNonemptyContract (apiRacesSeason db p) (q11 db p)) ∧
    ((apiRacesSeasonRound db p q).call.isSome →
      okNonemptyContract (apiRacesSeasonRound db p q) (q12 db p q)) ∧
    okNonemptyContract (apiRacesCircuits db p) (q13 db p) ∧
    ((apiRacesCircuitsSeasonRange db p q r).call.isSome →
      okNonemptyContract (apiRacesCircuitsSeasonRange db p q r) (q14 db p q r)) ∧
    ((apiResultsRace db p).call.isSome →
      okNonemptyContract (apiResultsRace db p) (q15 db p)) ∧
    okNonemptyContract (apiResultsDriver db p) (q16 db p) ∧
    ((apiResultsDriverSeasons db p q r).call.isSome →
      okNonemptyContract (apiResultsDriverSeasons db p q r) (q17 db p q r)) ∧
    ((apiQualifyingRace db p).call.isSome →
      okNonemptyContract (apiQualifyingRace db p) (q18 db p)) ∧
    ((apiStandingsDrivers db p).call.isSome →
      okNonemptyContract (apiStandingsDrivers db p) (q19 db p)) ∧
    ((apiStandingsConstructors db p).call.isSome →
      okNonemptyContract (apiStandingsConstructors db p) (q20 db p)) := by
  refine ⟨respondAll_ok _ _, respondGet_ok _ _, respondAll_ok _ _, respondAll_ok _ _,
    respondGet_ok _ _, respondAll_ok _ _, respondGet_ok _ _, respondAll_ok _ _,
    ?_, ?_, ?_, ?_, respondAll_ok _ _, ?_, ?_, respondAll_ok _ _, ?_, ?_, ?_, ?_⟩
  · intro hc
    by_cases hv : isInt p = true
    · simpa [okNonemptyContract, apiDriversRace, hv] using respondAll_ok (q9 db p) _
    · simp [apiDriversRace, hv] at hc
  · intro hc
    by_cases hv : isInt p = true
    · simpa [okNonemptyContract, apiRacesId, hv] using respondGet_ok (q10 db p) _
    · simp [apiRacesId, hv] at hc
  · intro hc
    by_cases hv : isInt p = true
    · simpa [okNonemptyContract, apiRacesSeason, hv] using respondAll_ok (q11 db p) _
    · simp [apiRacesSeason, hv] at hc
  · intro hc
    by_cases hv : (!(isInt p) || !(isInt q)) = true
    · simp [apiRacesSeasonRound, hv] at hc
    · simpa [okNonemptyContract, apiRacesSeasonRound, hv] using respondGet_ok (q12 db p q) _
  · intro hc
    by_cases hv : (!(isInt q) || !(isInt r)) = true
    · simp [apiRacesCircuitsSeasonRange, hv] at hc
    · by_cases hlt : jsLtB (jsToNumber r) (jsToNumber q) = true
      · simp [apiRacesCircuitsSeasonRange, hv, hlt] at hc
      · simpa [okNonemptyContract, apiRacesCircuitsSeasonRange, hv, hlt] using
          respondAll_ok (q14 db p q r) _
  · intro hc
    by_cases hv : isInt p = true
    · simpa [okNonemptyContract, apiResultsRace, hv] using respondAll_ok (q15 db p) _
    · simp [apiResultsRace, hv] at hc
  · intro hc
    by_cases hv : (!(isInt q) || !(isInt r)) = true
    · simp [apiResultsDriverSeasons, hv] at hc
    · by_cases hlt : jsLtB (jsToNumber r) (jsToNumber q) = true
      · simp [apiResultsDriverSeasons, hv, hlt] at hc
      · simpa [okNonemptyContract, apiResultsDriverSeasons, hv, hlt] using
          respondAll_ok (q17 db p q r) _
  · intro hc
    by_cases hv : isInt p = true
    · simpa [okNonemptyContract, apiQualifyingRace, hv] using respondAll_ok (q18 db p) _
    · simp [apiQualifyingRace, hv] at hc
  · intro hc
    by_cases hv : isInt p = true
    · simpa [okNonemptyContract, apiStandingsDrivers, hv] using respondAll_ok (q19 db p) _
    · simp [apiStandingsDrivers, hv] at hc
  · intro hc
    by_cases hv : isInt p = true
    · simpa [okNonemptyContract, apiStandingsConstructors, hv] using respondAll_ok (q20 db p) _
    · simp [apiStandingsConstructors, hv] at hc

/-- Witness for C3: on concrete databases, an empty circuits table gives 404,
a populated race gives a non-empty 200 body, and an unknown race id gives 404. -/
theorem c3_witness :
    (apiCircuits emptyDB).resp.statusCode = 404 ∧
    (apiDriversRace sampleDB "1106").resp.bodyRows ≠ [] ∧
    (apiRacesId sampleDB "9999").resp.statusCode = 404 := by
  obtain ⟨h1, _, _, _, _, _, _, _, _, _, _, _, _, _, _, _, _, _, _, _⟩ :=
    c3_empty_result_404_never_empty_200 emptyDB "x" "y" "z"
  obtain ⟨_, _, _, _, _, _, _, _, h9, _, _, _, _, _, _, _, _, _, _, _⟩ :=
    c3_empty_result_404_never_empty_200 sampleDB "1106" "y" "z"
  obtain ⟨_, _, _, _, _, _, _, _, _, h10, _, _, _, _, _, _, _, _, _, _⟩ :=
    c3_empty_result_404_never_empty_200 sampleDB "9999" "y" "z"
  exact ⟨h1.2 rfl, (h9 (by decide)).1 (by decide), (h10 (by decide)).2 (by decide)⟩

/-! ## Claim C4 (corrected). -/

/-- Counterexample to C4 as stated: the circuit-by-ref lookup (operation 2,
server.js line 50) calls `notFound(res)` with the default message, so the 404
body for the unknown reference `monaco` is the generic `No data found.`, which
does not contain the supplied reference. -/
theorem c4_counterexample :
    (apiCircuitsRef emptyDB "monaco").resp = .status404 "No data found." ∧
    strContains "No data found." "monaco" = false := by
  constructor
  · rfl
  · decide

/-- C4 amended: every keyed single-entity lookup except circuit-by-ref reports
an unknown key through a 404 whose message contains the literal key (operations
5, 7, 10 and 12); circuit-by-ref (operation 2) returns 404 with the generic
`No data found.` message that does not name the reference. -/
theorem c4_lookup_404_message_names_key (db : DB) (ref rid y rd : String) :
    (q2 db ref = [] → (apiCircuitsRef db ref).resp = .status404 noDataMsg) ∧
    (q5 db ref = [] →
      (apiConstructorsRef db ref).resp =
        .status404 ("No constructor found with ref \x27" ++ ref ++ "\x27.") ∧
      strContains ("No constructor found with ref \x27" ++ ref ++ "\x27.") ref = true) ∧
    (q7 db ref = [] →
      (apiDriversRef db ref).resp =
        .status404 ("No driver found with ref \x27" ++ ref ++ "\x27.") ∧
      strContains ("No driver found with ref \x27" ++ ref ++ "\x27.") ref = true) ∧
    ((apiRacesId db rid).call.isSome → q10 db rid = [] →
      (apiRacesId db rid).resp = .status404 ("No race found with id " ++ rid ++ ".") ∧
      strContains ("No race found with id " ++ rid ++ ".") rid = true) ∧
    ((apiRacesSeasonRound db y rd).call.isSome → q12 db y rd = [] →
      (apiRacesSeasonRound db y rd).resp =
        .status404 ("No race for season " ++ y ++ ", round " ++ rd ++ ".") ∧
      strContains ("No race for season " ++ y ++ ", round " ++ rd ++ ".") y = true ∧
      strContains ("No race for season " ++ y ++ ", round " ++ rd ++ ".") rd = true) := by
  refine ⟨?_, ?_, ?_, ?_, ?_⟩
  · intro he
    exact respondGet_eq_404 _ _ he
  · intro he
    exact ⟨respondGet_eq_404 _ _ he, strContains_append _ ref _⟩
  · intro he
    exact ⟨respondGet_eq_404 _ _ he, strContains_append _ ref _⟩
  · intro hc he
    by_cases hv : isInt rid = true
    · refine ⟨?_, strContains_append _ rid _⟩
      simp only [apiRacesId, hv, Bool.not_true, Bool.false_eq_true, if_false]
      exact respondGet_eq_404 _ _ he
    · simp [apiRacesId, hv] at hc
  · intro hc he
    by_cases hv : (!(isInt y) || !(isInt rd)) = true
    · simp [apiRacesSeasonRound, hv] at hc
    · refine ⟨?_, ?_, ?_⟩
      · simp only [apiRacesSeasonRound, hv, Bool.false_eq_true, if_false]
        exact respondGet_eq_404 _ _ he
      · have h := strContains_append "No race for season " y (", round " ++ rd ++ ".")
        have ha : "No race for season " ++ y ++ (", round " ++ rd ++ ".") =
            "No race for season " ++ y ++ ", round " ++ rd ++ "." := by
          simp [String.append_assoc]
        rw [ha] at h
        exact h
      · have h := strContains_append ("No race for season " ++ y ++ ", round ") rd "."
        have ha : "No race for season " ++ y ++ ", round " ++ rd ++ "." =
            "No race for season " ++ y ++ ", round " ++ rd ++ "." := rfl
        exact h

/-- Witness for C4's amended theorem: at concrete unknown keys the 404 message
carries the key for operations 5 and 10, and the generic message for 2. -/
theorem c4_witness :
    (apiCircuitsRef emptyDB "spa").resp = .status404 noDataMsg ∧
    (apiConstructorsRef emptyDB "lotus").resp =
      .status404 ("No constructor found with ref \x27" ++ "lotus" ++ "\x27.") ∧
    (apiRacesId sampleDB "77").resp = .status404 ("No race found with id " ++ "77" ++ ".") := by
  obtain ⟨h2, h5, _, _, _⟩ := c4_lookup_404_message_names_key emptyDB "spa" "77" "y" "rd"
  obtain ⟨_, h5b, _, h10, _⟩ := c4_lookup_404_message_names_key emptyDB "lotus" "77" "y" "rd"
  obtain ⟨_, _, _, h10b, _⟩ := c4_lookup_404_message_names_key sampleDB "x" "77" "y" "rd"
  exact ⟨h2 rfl, (h5b rfl).1, (h10b (by decide) (by decide)).1⟩

/-! ## Claim C6. -/

theorem rowInt_raceRow_round (r : Race) : rowInt (raceRow r) "round" = r.round := rfl

theorem rowInt_result15Row_grid (r : ResultRow) (ra : Race) (d : Driver) (c : Constructor) :
    rowInt (result15Row r ra d c) "grid" = r.grid := rfl

/-- C6: the races-in-a-season operation returns rows non-decreasing in the
`round` field, and the race-results operation returns rows non-decreasing in
the `grid` field. -/
theorem c6_rows_sorted_by_round_and_grid (db : DB) (year raceId : String)
    (rows1 rows2 : List Row) :
    ((apiRacesSeason db year).resp = .jsonArr rows1 →
      rows1.Pairwise (fun a b => rowInt a "round" ≤ rowInt b "round")) ∧
    ((apiResultsRace db raceId).resp = .jsonArr rows2 →
      rows2.Pairwise (fun a b => rowInt a "grid" ≤ rowInt b "grid")) := by
  constructor
  · intro h
    by_cases hv : isInt year = true
    · simp only [apiRacesSeason, hv, Bool.not_true, Bool.false_eq_true, if_false] at h
      obtain ⟨he, _⟩ := respondAll_arr _ _ _ h
      subst he
      unfold q11
      rw [List.pairwise_map]
      simp only [rowInt_raceRow_round]
      exact pairwise_sortBy_intKey (fun r : Race => r.round) _
    · simp [apiRacesSeason, hv, badReq] at h
  · intro h
    by_cases hv : isInt raceId = true
    · simp only [apiResultsRace, hv, Bool.not_true, Bool.false_eq_true, if_false] at h
      obtain ⟨he, _⟩ := respondAll_arr _ _ _ h
      subst he
      unfold q15
      rw [List.pairwise_map]
      simp only [rowInt_result15Row_grid]
      exact pairwise_sortBy_intKey (fun t : ResultRow × Race × Driver × Constructor => t.1.grid) _
    · simp [apiResultsRace, hv, badReq] at h

/-- Witness for C6: the concrete 2022 season list and race-1106 result list of
the sample database come out sorted. -/
theorem c6_witness :
    ([raceRow sampleRace] : List Row).Pairwise
      (fun a b => rowInt a "round" ≤ rowInt b "round") ∧
    ([result15Row sampleResult sampleRace sampleDriver sampleConstructor,
      result15Row sampleResult2 sampleRace sampleDriver2 sampleConstructor] :
        List Row).Pairwise (fun a b => rowInt a "grid" ≤ rowInt b "grid") :=
  ⟨(c6_rows_sorted_by_round_and_grid sampleDB "2022" "1106" [raceRow sampleRace] []).1
      (by decide),
   (c6_rows_sorted_by_round_and_grid sampleDB "2022" "1106" []
      [result15Row sampleResult sampleRace sampleDriver sampleConstructor,
       result15Row sampleResult2 sampleRace sampleDriver2 sampleConstructor]).2
      (by decide)⟩

/-! ## Claim C7. -/

theorem mem_ifSingleton {α : Type} (c : Bool) (a x : α) :
    x ∈ (if c then [a] else []) ↔ c = true ∧ x = a := by
  cases c <;> simp

/-- C7: a successful get-race-by-id response is a single object whose columns
are exactly the seven race fields followed by the circuit name, location and
country inlined from the joined Circuit row; the circuit foreign key
`circuitId` appears under no key, and the three inlined values come from a
circuit row joined on `circuitId`. -/
theorem c7_race_by_id_inlines_circuit_hides_fk (db : DB) (raceId : String) (row : Row) :
    (apiRacesId db raceId).resp = .jsonObj row →
    rowKeys row = ["raceId", "year", "round", "name", "date", "time", "url",
      "circuitName", "location", "country"] ∧
    row.lookup "circuitId" = none ∧
    ∃ r ∈ db.races, ∃ c ∈ db.circuits, c.circuitId = r.circuitId ∧
      textEqInt raceId r.raceId = true ∧ row = race10Row r c ∧
      row.lookup "circuitName" = some (.s c.name) ∧
      row.lookup "location" = some (.s c.location) ∧
      row.lookup "country" = some (.s c.country) := by
  intro h
  by_cases hv : isInt raceId = true
  · simp only [apiRacesId, hv, Bool.not_true, Bool.false_eq_true, if_false] at h
    have hmem : row ∈ q10 db raceId := respondGet_obj _ _ _ h
    unfold q10 at hmem
    rw [List.mem_map] at hmem
    obtain ⟨pair, hpair, hrow⟩ := hmem
    unfold q10pairs at hpair
    simp only [List.mem_flatMap, mem_ifSingleton] at hpair
    simp only [Bool.and_eq_true, beq_iff_eq] at hpair
    obtain ⟨r, hr, c, hc, ⟨⟨hcid, heq⟩, hpe⟩⟩ := hpair
    subst hpe
    subst hrow
    exact ⟨rfl, rfl, r, hr, c, hc, hcid, heq, rfl, rfl, rfl, rfl⟩
  · simp [apiRacesId, hv, badReq] at h

/-- Witness for C7: the concrete race 1106 object of the sample database. -/
theorem c7_witness :
    rowKeys (race10Row sampleRace sampleCircuit) =
      ["raceId", "year", "round", "name", "date", "time", "url",
       "circuitName", "location", "country"] ∧
    (race10Row sampleRace sampleCircuit).lookup "circuitId" = none := by
  obtain ⟨h1, h2, _⟩ :=
    c7_race_by_id_inlines_circuit_hides_fk sampleDB "1106"
      (race10Row sampleRace sampleCircuit) (by decide)
  exact ⟨h1, h2⟩

/-! ## Claim C8. -/

theorem rowInt_raceRow_year (r : Race) : rowInt (raceRow r) "year" = r.year := rfl

/-- C8: under the dataset invariant that `round` is unique within a season,
the get-race-by-season-and-round operation returns exactly the one matching
race as a single object; its `round` and `year` fields are the requested ones.
(`sqliteNum p = some ⟨v, 0⟩` states that the parameter is a plain integer
numeral denoting `v`, as in the `2022`/`4` scenario.) -/
theorem c8_season_round_returns_unique_race (db : DB) (ys rs : String) (y rd : Int) (r : Race)
    (huniq : ∀ r1 ∈ db.races, ∀ r2 ∈ db.races,
      r1.year = r2.year → r1.round = r2.round → r1 = r2)
    (hy : isInt ys = true) (hrd : isInt rs = true)
    (hys : sqliteNum ys = some ⟨y, 0⟩) (hrs : sqliteNum rs = some ⟨rd, 0⟩)
    (hr : r ∈ db.races) (hyr : r.year = y) (hrr : r.round = rd) :
    (apiRacesSeasonRound db ys rs).resp = .jsonObj (raceRow r) ∧
    rowInt (raceRow r) "round" = rd ∧ rowInt (raceRow r) "year" = y := by
  refine ⟨?_, by rw [rowInt_raceRow_round, hrr], by rw [rowInt_raceRow_year, hyr]⟩
  have hcond : (!(isInt ys) || !(isInt rs)) = false := by simp [hy, hrd]
  simp only [apiRacesSeasonRound, hcond, Bool.false_eq_true, if_false]
  have hpred : ∀ r2 : Race,
      (textEqInt ys r2.year && textEqInt rs r2.round) = true ↔
        (r2.year = y ∧ r2.round = rd) := by
    intro r2
    simp only [Bool.and_eq_true, textEqInt, hys, hrs, Dec.eqInt, pow_zero, mul_one,
      beq_iff_eq]
    constructor
    · rintro ⟨h1, h2⟩
      exact ⟨h1.symm, h2.symm⟩
    · rintro ⟨h1, h2⟩
      exact ⟨h1.symm, h2.symm⟩
  cases hl : db.races.filter (fun r2 => textEqInt ys r2.year && textEqInt rs r2.round) with
  | nil =>
    exfalso
    have hmem : r ∈ db.races.filter (fun r2 => textEqInt ys r2.year && textEqInt rs r2.round) :=
      List.mem_filter.mpr ⟨hr, (hpred r).mpr ⟨hyr, hrr⟩⟩
    rw [hl] at hmem
    exact absurd hmem (List.not_mem_nil r)
  | cons h0 t =>
    have hh : h0 ∈ db.races.filter (fun r2 => textEqInt ys r2.year && textEqInt rs r2.round) := by
      rw [hl]
      exact List.mem_cons_self _ _
    obtain ⟨hh1, hh2⟩ := List.mem_filter.mp hh
    obtain ⟨hhy, hhr⟩ := (hpred h0).mp hh2
    have heq : h0 = r := huniq h0 hh1 r hr (by rw [hhy, hyr]) (by rw [hhr, hrr])
    subst heq
    show respondGet (q12 db ys rs) _ = _
    unfold q12
    rw [hl]
    rfl

/-- Witness for C8: `GET /api/races/season/2022/4` on the sample database
returns exactly the sample race, with `round` 4 and `year` 2022. -/
theorem c8_witness :
    (apiRacesSeasonRound sampleDB "2022" "4").resp = .jsonObj (raceRow sampleRace) ∧
    rowInt (raceRow sampleRace) "round" = 4 ∧ rowInt (raceRow sampleRace) "year" = 2022 :=
  c8_season_round_returns_unique_race sampleDB "2022" "4" 2022 4 sampleRace
    (by decide) (by decide) (by decide) (by decide) (by decide) (by decide)
    (by decide) (by decide)

/-! ## Claim C9. -/

/-- C9: for every operation, whenever a query is submitted to the data store,
its SQL text is the operation's fixed template constant (`sql1` … `sql20`,
closed definitions independent of the request), and the user-supplied path
parameters appear only in the bind list, in route order.  In particular the
query text of any two runs of the same operation is identical, and no request
value is interpolated into the text. -/
theorem c9_fixed_sql_text_params_only_bound (db : DB) (p q r : String) :
    (apiCircuits db).call = some ⟨sql1, []⟩ ∧
    (apiCircuitsRef db p).call = some ⟨sql2, [p]⟩ ∧
    (apiCircuitsSeason db p).call = some ⟨sql3, [p]⟩ ∧
    (apiConstructors db).call = some ⟨sql4, []⟩ ∧
    (apiConstructorsRef db p).call = some ⟨sql5, [p]⟩ ∧
    (apiDrivers db).call = some ⟨sql6, []⟩ ∧
    (apiDriversRef db p).call = some ⟨sql7, [p]⟩ ∧
    (apiDriversSearch db p).call = some ⟨sql8, [p]⟩ ∧
    (∀ c, (apiDriversRace db p).call = some c → c = ⟨sql9, [p]⟩) ∧
    (∀ c, (apiRacesId db p).call = some c → c = ⟨sql10, [p]⟩) ∧
    (∀ c, (apiRacesSeason db p).call = some c → c = ⟨sql11, [p]⟩) ∧
    (∀ c, (apiRacesSeasonRound db p q).call = some c → c = ⟨sql12, [p, q]⟩) ∧
    (apiRacesCircuits db p).call = some ⟨sql13, [p]⟩ ∧
    (∀ c, (apiRacesCircuitsSeasonRange db p q r).call = some c → c = ⟨sql14, [p, q, r]⟩) ∧
    (∀ c, (apiResultsRace db p).call = some c → c = ⟨sql15, [p]⟩) ∧
    (apiResultsDriver db p).call = some ⟨sql16, [p]⟩ ∧
    (∀ c, (apiResultsDriverSeasons db p q r).call = some c → c = ⟨sql17, [p, q, r]⟩) ∧
    (∀ c, (apiQualifyingRace db p).call = some c → c = ⟨sql18, [p]⟩) ∧
    (∀ c, (apiStandingsDrivers db p).call = some c → c = ⟨sql19, [p]⟩) ∧
    (∀ c, (apiStandingsConstructors db p).call = some c → c = ⟨sql20, [p]⟩) := by
  refine ⟨rfl, rfl, rfl, rfl, rfl, rfl, rfl, rfl, ?_, ?_, ?_, ?_, rfl, ?_, ?_, rfl,
    ?_, ?_, ?_, ?_⟩
  · intro c hc
    by_cases hv : isInt p = true
    · simp only [apiDriversRace, hv, Bool.not_true, Bool.false_eq_true, if_false,
        Option.some.injEq] at hc
      exact hc.symm
    · simp [apiDriversRace, hv] at hc
  · intro c hc
    by_cases hv : isInt p = true
    · simp only [apiRacesId, hv, Bool.not_true, Bool.false_eq_true, if_false,
        Option.some.injEq] at hc
      exact hc.symm
    · simp [apiRacesId, hv] at hc
  · intro c hc
    by_cases hv : isInt p = true
    · simp only [apiRacesSeason, hv, Bool.not_true, Bool.false_eq_true, if_false,
        Option.some.injEq] at hc
      exact hc.symm
    · simp [apiRacesSeason, hv] at hc
  · intro c hc
    by_cases hv : (!(isInt p) || !(isInt q)) = true
    · simp [apiRacesSeasonRound, hv] at hc
    · simp only [apiRacesSeasonRound, hv, Bool.false_eq_true, if_false,
        Option.some.injEq] at hc
      exact hc.symm
  · intro c hc
    by_cases hv : (!(isInt q) || !(isInt r)) = true
    · simp [apiRacesCircuitsSeasonRange, hv] at hc
    · by_cases hlt : jsLtB (jsToNumber r) (jsToNumber q) = true
      · simp [apiRacesCircuitsSeasonRange, hv, hlt] at hc
      · simp only [apiRacesCircuitsSeasonRange, hv, hlt, Bool.false_eq_true, if_false,
          Option.some.injEq] at hc
        exact hc.symm
  · intro c hc
    by_cases hv : isInt p = true
    · simp only [apiResultsRace, hv, Bool.not_true, Bool.false_eq_true, if_false,
        Option.some.injEq] at hc
      exact hc.symm
    · simp [apiResultsRace, hv] at hc
  · intro c hc
    by_cases hv : (!(isInt q) || !(isInt r)) = true
    · simp [apiResultsDriverSeasons, hv] at hc
    · by_cases hlt : jsLtB (jsToNumber r) (jsToNumber q) = true
      · simp [apiResultsDriverSeasons, hv, hlt] at hc
      · simp only [apiResultsDriverSeasons, hv, hlt, Bool.false_eq_true, if_false,
          Option.some.injEq] at hc
        exact hc.symm
  · intro c hc
    by_cases hv : isInt p = true
    · simp only [apiQualifyingRace, hv, Bool.not_true, Bool.false_eq_true, if_false,
        Option.some.injEq] at hc
      exact hc.symm
    · simp [apiQualifyingRace, hv] at hc
  · intro c hc
    by_cases hv : isInt p = true
    · simp only [apiStandingsDrivers, hv, Bool.not_true, Bool.false_eq_true, if_false,
        Option.some.injEq] at hc
      exact hc.symm
    · simp [apiStandingsDrivers, hv] at hc
  · intro c hc
    by_cases hv : isInt p = true
    · simp only [apiStandingsConstructors, hv, Bool.not_true, Bool.false_eq_true, if_false,
        Option.some.injEq] at hc
      exact hc.symm
    · simp [apiStandingsConstructors, hv] at hc

/-- Witness for C9: the concrete query call of `GET /api/drivers/race/1106`
carries the fixed template `sql9` with the raw parameter as its only bind. -/
theorem c9_witness :
    (apiDriversRace sampleDB "1106").call = some ⟨sql9, ["1106"]⟩ := by
  obtain ⟨_, _, _, _, _, _, _, _, h9, _⟩ :=
    c9_fixed_sql_text_params_only_bound sampleDB "1106" "x" "y"
  cases hc : (apiDriversRace sampleDB "1106").call with
  | none => exact absurd hc (by decide)
  | some c =>
    rw [h9 c hc]

/-! ## Claim C10. -/

theorem respondAll_status_ne_400 (rows : List Row) (msg : String) :
    (respondAll rows msg).statusCode ≠ 400 := by
  by_cases h : rows.isEmpty <;> simp [respondAll, h, Resp.statusCode]

/-- C10: the integer-validation predicate accepts exactly the strings whose
(modelled, exact-decimal) JavaScript `Number` conversion is a finite integer
value; hence non-canonical forms such as `5.0`, `0x1A`, `1e3` and
whitespace-padded digits pass validation, while NaN, infinite, and fractional
conversions are rejected; and an accepted non-canonical string is bound into
the query as the original string rather than being rejected with 400. -/
theorem c10_isInt_accepts_integer_number_conversion (v : String) (db : DB) :
    (isInt v = true ↔ ∃ d, jsToNumber v = .fin d ∧ d.isWhole = true) ∧
    isInt "5.0" = true ∧ isInt "0x1A" = true ∧ isInt "1e3" = true ∧ isInt " 42 " = true ∧
    isInt "abc" = false ∧ isInt "5.5" = false ∧ isInt "Infinity" = false ∧
    (apiDriversRace db "5.0").call = some ⟨sql9, ["5.0"]⟩ ∧
    (apiDriversRace db "5.0").resp.statusCode ≠ 400 := by
  refine ⟨?_, by decide, by decide, by decide, by decide, by decide, by decide, by decide,
    ?_, ?_⟩
  · constructor
    · intro h
      cases hj : jsToNumber v with
      | fin d =>
        rw [isInt, hj] at h
        exact ⟨d, rfl, h⟩
      | nan => rw [isInt, hj] at h; exact absurd h (by decide)
      | posinf => rw [isInt, hj] at h; exact absurd h (by decide)
      | neginf => rw [isInt, hj] at h; exact absurd h (by decide)
    · rintro ⟨d, hd, hw⟩
      rw [isInt, hd]
      exact hw
  · simp [apiDriversRace, show isInt "5.0" = true by decide]
  · simp only [apiDriversRace, show isInt "5.0" = true by decide, Bool.not_true,
      Bool.false_eq_true, if_false]
    exact respondAll_status_ne_400 _ _

/-- Witness for C10: `5.0` converts to the finite integer decimal `50/10` and
is bound into the query as the original string. -/
theorem c10_witness :
    (∃ d, jsToNumber "5.0" = JSNum.fin d ∧ d.isWhole = true) ∧
    (apiDriversRace sampleDB "5.0").call = some ⟨sql9, ["5.0"]⟩ := by
  obtain ⟨hiff, _, _, _, _, _, _, _, hcall, _⟩ :=
    c10_isInt_accepts_integer_number_conversion "5.0" sampleDB
  exact ⟨hiff.mp (by decide), hcall⟩

/-! ## Claim C2. -/

/-- C2: for both two-ended range operations (14 and 17): a numerically
inverted range yields 400 with no query; the integer-format check runs first
(its 400 message wins whenever either bound fails `isInt`, regardless of the
comparison); and for valid integer bounds with `end ≥ start` the query runs
and filters years inclusively over `[start, end]` (stated as an exact
membership characterization of the evaluated queries). -/
theorem c2_range_bounds_validation_and_inclusive_filter (db : DB) (ref s e : String)
    (sv ev : Int) (dsv dev : Dec) :
    (jsToNumber s = .fin dsv → jsToNumber e = .fin dev → Dec.ltD dev dsv = true →
      (apiRacesCircuitsSeasonRange db ref s e).resp.statusCode = 400 ∧
      (apiRacesCircuitsSeasonRange db ref s e).call = none ∧
      (apiResultsDriverSeasons db ref s e).resp.statusCode = 400 ∧
      (apiResultsDriverSeasons db ref s e).call = none) ∧
    ((isInt s = false ∨ isInt e = false) →
      (apiRacesCircuitsSeasonRange db ref s e).resp = badReq "start and end must be integers." ∧
      (apiResultsDriverSeasons db ref s e).resp = badReq "start and end must be integers." ∧
      (apiRacesCircuitsSeasonRange db ref s e).call = none ∧
      (apiResultsDriverSeasons db ref s e).call = none) ∧
    (isInt s = true → isInt e = true →
     jsToNumber s = .fin ⟨sv, 0⟩ → jsToNumber e = .fin ⟨ev, 0⟩ →
     sqliteNum s = some ⟨sv, 0⟩ → sqliteNum e = some ⟨ev, 0⟩ → sv ≤ ev →
      (apiRacesCircuitsSeasonRange db ref s e).call = some ⟨sql14, [ref, s, e]⟩ ∧
      (apiResultsDriverSeasons db ref s e).call = some ⟨sql17, [ref, s, e]⟩ ∧
      (∀ r2 : Race, r2 ∈ q14races db ref s e ↔
        (r2 ∈ db.races ∧ (∃ c ∈ db.circuits, c.circuitId = r2.circuitId ∧ c.circuitRef = ref) ∧
         sv ≤ r2.year ∧ r2.year ≤ ev)) ∧
      (∀ t : ResultRow × Race × Constructor, t ∈ q17tuples db ref s e ↔
        (t.1 ∈ db.results ∧ t.2.1 ∈ db.races ∧ t.2.2 ∈ db.constructors ∧
         (∃ d ∈ db.drivers, d.driverId = t.1.driverId ∧ d.driverRef = ref) ∧
         t.2.1.raceId = t.1.raceId ∧ t.2.2.constructorId = t.1.constructorId ∧
         sv ≤ t.2.1.year ∧ t.2.1.year ≤ ev))) := by
  refine ⟨?_, ?_, ?_⟩
  · intro h1 h2 h3
    have key : jsLtB (jsToNumber e) (jsToNumber s) = true := by
      rw [h1, h2]
      simpa [jsLtB] using h3
    by_cases hv : (!(isInt s) || !(isInt e)) = true
    · refine ⟨?_, ?_, ?_, ?_⟩ <;>
        simp [apiRacesCircuitsSeasonRange, apiResultsDriverSeasons, hv, badReq,
          Resp.statusCode]
    · refine ⟨?_, ?_, ?_, ?_⟩ <;>
        simp [apiRacesCircuitsSeasonRange, apiResultsDriverSeasons, hv, key, badReq,
          Resp.statusCode]
  · intro h
    have hv : (!(isInt s) || !(isInt e)) = true := by
      rcases h with h | h <;> simp [h]
    refine ⟨?_, ?_, ?_, ?_⟩ <;>
      simp [apiRacesCircuitsSeasonRange, apiResultsDriverSeasons, hv, badReq]
  · intro hints hinte hjs hje hs he hle
    have hv : (!(isInt s) || !(isInt e)) = false := by simp [hints, hinte]
    have hlt : jsLtB (jsToNumber e) (jsToNumber s) = false := by
      rw [hjs, hje]
      simp only [jsLtB, Dec.ltD, pow_zero, mul_one]
      simpa using hle
    refine ⟨?_, ?_, ?_, ?_⟩
    · simp [apiRacesCircuitsSeasonRange, hv, hlt]
    · simp [apiResultsDriverSeasons, hv, hlt]
    · intro r2
      rw [q14races, mem_sortBy]
      simp only [List.mem_flatMap, mem_ifSingleton]
      simp only [Bool.and_eq_true, beq_iff_eq, yearBetween, hs, he, leInt_exp0,
        geInt_exp0, decide_eq_true_eq]
      constructor
      · rintro ⟨r3, hr3, c, hc, ⟨⟨⟨hcid, href⟩, hy1, hy2⟩, rfl⟩⟩
        exact ⟨hr3, ⟨c, hc, hcid, href⟩, hy1, hy2⟩
      · rintro ⟨hr2, ⟨c, hc, hcid, href⟩, hy1, hy2⟩
        exact ⟨r2, hr2, c, hc, ⟨⟨⟨hcid, href⟩, hy1, hy2⟩, rfl⟩⟩
    · intro t
      rw [q17tuples]
      simp only [List.mem_flatMap, mem_ifSingleton]
      simp only [Bool.and_eq_true, beq_iff_eq, yearBetween, hs, he, leInt_exp0,
        geInt_exp0, decide_eq_true_eq]
      constructor
      · rintro ⟨rr, hrr, d, hd, ra, hra, cc, hcc, ⟨⟨⟨⟨⟨hdid, hraid⟩, hcid⟩, href⟩, hy1, hy2⟩, rfl⟩⟩
        exact ⟨hrr, hra, hcc, ⟨d, hd, hdid, href⟩, hraid, hcid, hy1, hy2⟩
      · rintro ⟨hrr, hra, hcc, ⟨d, hd, hdid, href⟩, hraid, hcid, hy1, hy2⟩
        exact ⟨t.1, hrr, d, hd, t.2.1, hra, t.2.2, hcc,
          ⟨⟨⟨⟨⟨hdid, hraid⟩, hcid⟩, href⟩, hy1, hy2⟩, rfl⟩⟩

/-- Witness for C2: on the sample database, `2020..2015` is rejected with 400
before any query, while `2015..2022` runs the bound query and the 2022 Monza
race is in the inclusively filtered result. -/
theorem c2_witness :
    (apiRacesCircuitsSeasonRange sampleDB "monza" "2020" "2015").resp.statusCode = 400 ∧
    (apiRacesCircuitsSeasonRange sampleDB "monza" "2020" "2015").call = none ∧
    (apiRacesCircuitsSeasonRange sampleDB "monza" "2015" "2022").call =
      some ⟨sql14, ["monza", "2015", "2022"]⟩ ∧
    sampleRace ∈ q14races sampleDB "monza" "2015" "2022" := by
  obtain ⟨ha, _, _⟩ :=
    c2_range_bounds_validation_and_inclusive_filter sampleDB "monza" "2020" "2015"
      0 0 ⟨2020, 0⟩ ⟨2015, 0⟩
  obtain ⟨_, _, hc⟩ :=
    c2_range_bounds_validation_and_inclusive_filter sampleDB "monza" "2015" "2022"
      2015 2022 ⟨0, 0⟩ ⟨0, 0⟩
  have p1 := ha (by decide) (by decide) (by decide)
  have p2 := hc (by decide) (by decide) (by decide) (by decide) (by decide) (by decide)
    (by decide)
  refine ⟨p1.1, p1.2.1, p2.1, ?_⟩
  exact (p2.2.2.1 sampleRace).mpr
    ⟨by decide, ⟨sampleCircuit, by decide, by decide, by decide⟩, by decide, by decide⟩

/-! ## Claim C5. -/

theorem char_le_iff_toNat (a b : Char) : a ≤ b ↔ a.toNat ≤ b.toNat := by
  rw [Char.le_def, UInt32.le_def, BitVec.le_def]
  rfl

theorem toNat_ofNat_shift (c : Char) (h1 : 65 ≤ c.toNat) (h2 : c.toNat ≤ 90) :
    (Char.ofNat (c.toNat + 32)).toNat = c.toNat + 32 := by
  unfold Char.ofNat
  split
  · rfl
  · rename_i hv
    exfalso
    apply hv
    constructor
    omega

theorem lowChar_idem (c : Char) : lowChar (lowChar c) = lowChar c := by
  by_cases h : ('A' ≤ c && c ≤ 'Z') = true
  · obtain ⟨ha, hz⟩ : 'A' ≤ c ∧ c ≤ 'Z' := by
      simpa [Bool.and_eq_true, decide_eq_true_eq] using h
    have h1 : 65 ≤ c.toNat := by
      have hx := (char_le_iff_toNat 'A' c).mp ha
      have h65 : ('A' : Char).toNat = 65 := rfl
      rw [h65] at hx
      exact hx
    have h2 : c.toNat ≤ 90 := by
      have hx := (char_le_iff_toNat c 'Z').mp hz
      have h90 : ('Z' : Char).toNat = 90 := rfl
      rw [h90] at hx
      exact hx
    have hlc : lowChar c = Char.ofNat (c.toNat + 32) := by simp [lowChar, h]
    have ht : (Char.ofNat (c.toNat + 32)).toNat = c.toNat + 32 := toNat_ofNat_shift c h1 h2
    have hno : ¬ (Char.ofNat (c.toNat + 32) ≤ 'Z') := by
      rw [char_le_iff_toNat, ht]
      have h90 : ('Z' : Char).toNat = 90 := rfl
      rw [h90]
      omega
    rw [hlc]
    simp [lowChar, hno]
  · have hlc : lowChar c = c := by simp [lowChar, h]
    rw [hlc]
    exact hlc

theorem map_lowChar_idem (l : List Char) : (l.map lowChar).map lowChar = l.map lowChar := by
  induction l with
  | nil => rfl
  | cons a l ih => simp [lowChar_idem, ih]

theorem sqliteLower_toList (s : String) : (sqliteLower s).toList = s.data.map lowChar := rfl

/-- Case-insensitive (ASCII) prefix test: the folded pattern is a prefix of the
folded text. -/
def ciPrefix (pat txt : String) : Bool :=
  (pat.data.map lowChar).isPrefixOf (txt.data.map lowChar)

/-- C5: the surname search performs a case-insensitive prefix match on
surname (membership characterization for wildcard-free search strings),
returns its rows ordered by surname then forename ascending, and an empty
substring matches every driver, so that request returns the full (sorted)
driver list with status 200 rather than an error. -/
theorem c5_surname_prefix_search_semantics (db : DB) (sub : String) (rows : List Row) :
    (noWildcard (sqliteLower sub).toList = true →
      ∀ d : Driver, d ∈ q8drivers db sub ↔ d ∈ db.drivers ∧ ciPrefix sub d.surname = true) ∧
    ((apiDriversSearch db sub).resp = .jsonArr rows →
      rows = (q8drivers db sub).map driverRow ∧ rows ≠ [] ∧
      (q8drivers db sub).Pairwise (fun a b => surnameForenameLe a b = true)) ∧
    (sub = "" →
      List.Perm (q8drivers db sub) db.drivers ∧
      (db.drivers ≠ [] → (apiDriversSearch db sub).resp.statusCode = 200)) := by
  refine ⟨?_, ?_, ?_⟩
  · intro hnw d
    have hlm : ∀ dd : Driver,
        likeMatch ((sqliteLower sub).toList ++ ['%']) ((sqliteLower dd.surname).toList) =
          ciPrefix sub dd.surname := by
      intro dd
      rw [likeMatch_prefix_eq _ _ hnw, sqliteLower_toList, sqliteLower_toList,
        map_lowChar_idem, map_lowChar_idem]
      rfl
    unfold q8drivers
    rw [mem_sortBy, List.mem_filter, hlm d]
  · intro h
    have harr := respondAll_arr (q8 db sub) _ rows h
    obtain ⟨he, hne⟩ := harr
    refine ⟨he, by rw [he]; exact hne, ?_⟩
    unfold q8drivers
    exact pairwise_sortBy surnameForenameLe (fun a b c => surnameForenameLe_trans)
      surnameForenameLe_total _
  · intro h
    subst h
    have hfil : db.drivers.filter (fun d =>
        likeMatch ((sqliteLower "").toList ++ ['%']) ((sqliteLower d.surname).toList)) =
        db.drivers := by
      rw [List.filter_eq_self]
      intro a _
      exact likeMatch_percent _
    have hperm : List.Perm (q8drivers db "") db.drivers := by
      unfold q8drivers
      rw [hfil]
      exact sortBy_perm _ _
    refine ⟨hperm, ?_⟩
    intro hne
    have hq8 : q8 db "" ≠ [] := by
      unfold q8
      simp only [ne_eq, List.map_eq_nil_iff]
      intro hx
      rw [← List.length_eq_zero] at hx
      rw [hperm.length_eq] at hx
      rw [List.length_eq_zero] at hx
      exact hne hx
    show (respondAll (q8 db "") _).statusCode = 200
    exact (respondAll_status200 _ _).mpr hq8

/-- Witness for C5: on the sample database, `Ham` matches Hamilton
case-insensitively, and the empty substring yields the full two-driver list
with status 200. -/
theorem c5_witness :
    sampleDriver ∈ q8drivers sampleDB "Ham" ∧
    List.Perm (q8drivers sampleDB "") [sampleDriver, sampleDriver2] ∧
    (apiDriversSearch sampleDB "").resp.statusCode = 200 := by
  obtain ⟨h1, _, _⟩ := c5_surname_prefix_search_semantics sampleDB "Ham" []
  obtain ⟨_, _, h3⟩ := c5_surname_prefix_search_semantics sampleDB "" []
  have hp := h3 rfl
  exact ⟨(h1 (by decide) sampleDriver).mpr ⟨by decide, by decide⟩, hp.1, hp.2 (by decide)⟩
